import Mathlib

/-!
Shallow embedding of the binary-parsing core of the digital-detective-suite
repository: the file carver (`src/components/tools/FileCarver.tsx`), the file
signature detector (`src/components/tools/HashAnalyzer.tsx`), the EXIF/GPS
extractor (`src/components/tools/GPSExtractor.tsx`) and the FAT/NTFS readers
(`src/components/tools/HexViewer.tsx`).

Buffers (`Uint8Array`/`ArrayBuffer` in the source) are modelled as `List Nat`;
a real typed array holds values below 256, which theorems assume through an
explicit hypothesis where the value range matters.  JavaScript numbers are
modelled by `JSNum` (exact rationals plus the three non-finite values), so that
division by zero yields Infinity/NaN exactly as in IEEE arithmetic; rational
instead of floating-point arithmetic is an exact model of all sign/nullness
facts proved here.  Out-of-bounds `DataView` reads (which throw in JS) are
modelled with `Except`; out-of-bounds plain indexing (which yields `undefined`,
coerced to 0 by the bitwise operators the source applies to every such read) is
modelled by `List.getD _ _ 0`.  Loops are modelled by fuel-based structural
recursion with fuel provably larger than the iteration count.
-/

namespace DDS

/-- `DataView.getUint8`: throws (here: errors) when out of bounds. -/
def dvU8 (d : List Nat) (i : Nat) : Except Unit Nat :=
  if i < d.length then .ok (d.getD i 0) else .error ()

/-- `DataView.getUint16(i, littleEndian)`. -/
def dvU16 (le : Bool) (d : List Nat) (i : Nat) : Except Unit Nat :=
  if i + 2 ≤ d.length then
    .ok (if le then d.getD i 0 + d.getD (i+1) 0 * 256
         else d.getD i 0 * 256 + d.getD (i+1) 0)
  else .error ()

/-- `DataView.getUint32(i, littleEndian)`. -/
def dvU32 (le : Bool) (d : List Nat) (i : Nat) : Except Unit Nat :=
  if i + 4 ≤ d.length then
    .ok (if le then
          d.getD i 0 + d.getD (i+1) 0 * 256 + d.getD (i+2) 0 * 65536 +
            d.getD (i+3) 0 * 16777216
         else
          d.getD i 0 * 16777216 + d.getD (i+1) 0 * 65536 + d.getD (i+2) 0 * 256 +
            d.getD (i+3) 0)
  else .error ()

/-- JavaScript `ToInt32` applied to a non-negative integer: the value of a
32-bit `|`/`<<` chain. -/
def toInt32 (n : Nat) : Int :=
  let m := n % 4294967296
  if m < 2147483648 then (m : Int) else (m : Int) - 4294967296

/-- `data[i] | (data[i+1] << 8)` on a `Uint8Array` (undefined coerces to 0). -/
def rd16 (d : List Nat) (i : Nat) : Nat :=
  d.getD i 0 + d.getD (i+1) 0 * 256

/-- `data[i] | (data[i+1]<<8) | (data[i+2]<<16) | (data[i+3]<<24)`: a signed
32-bit value in JavaScript. -/
def rd32s (d : List Nat) (i : Nat) : Int :=
  toInt32 (d.getD i 0 + d.getD (i+1) 0 * 256 + d.getD (i+2) 0 * 65536 +
    d.getD (i+3) 0 * 16777216)

/-- `Uint8Array.prototype.slice(s, e)` with non-negative indices (clamping). -/
def jsSlice (d : List Nat) (s e : Nat) : List Nat :=
  (d.take e).drop s

/-- JavaScript whitespace recognised by `String.prototype.trim`. -/
def isJsSpace (c : Char) : Bool :=
  c = ' ' ∨ c = '\t' ∨ c = '\n' ∨ c = '\x0d' ∨ c = '\x0b' ∨ c = '\x0c' ∨
    c = '\xa0'

/-- `String.prototype.trim` on a character list. -/
def jsTrim (s : List Char) : List Char :=
  ((s.dropWhile isJsSpace).reverse.dropWhile isJsSpace).reverse

/-! ## File carver (`FileCarver.tsx`) -/

inductive Cat
  | image | video | audio | document | archive | other
deriving DecidableEq

/-- `FileSignature` of `FileCarver.tsx` (the `icon` field is UI-only and
omitted). -/
structure CSig where
  name : String
  extension : String
  header : List Nat
  footer : Option (List Nat) := none
  maxSize : Option Nat := none
  category : Cat
deriving DecidableEq

/-- The carving catalog `fileSignatures` of `FileCarver.tsx`. -/
def cSignatures : List CSig := [
  { name := "JPEG", extension := "jpg", header := [0xFF, 0xD8, 0xFF],
    footer := some [0xFF, 0xD9], maxSize := some 50000000, category := .image },
  { name := "PNG", extension := "png",
    header := [0x89, 0x50, 0x4E, 0x47, 0x0D, 0x0A, 0x1A, 0x0A],
    footer := some [0x49, 0x45, 0x4E, 0x44, 0xAE, 0x42, 0x60, 0x82],
    maxSize := some 50000000, category := .image },
  { name := "GIF", extension := "gif", header := [0x47, 0x49, 0x46, 0x38],
    footer := some [0x00, 0x3B], maxSize := some 20000000, category := .image },
  { name := "BMP", extension := "bmp", header := [0x42, 0x4D],
    maxSize := some 50000000, category := .image },
  { name := "WebP", extension := "webp", header := [0x52, 0x49, 0x46, 0x46],
    maxSize := some 50000000, category := .image },
  { name := "MP4", extension := "mp4", header := [0x00, 0x00, 0x00],
    maxSize := some 500000000, category := .video },
  { name := "AVI", extension := "avi", header := [0x52, 0x49, 0x46, 0x46],
    maxSize := some 500000000, category := .video },
  { name := "MKV", extension := "mkv", header := [0x1A, 0x45, 0xDF, 0xA3],
    maxSize := some 500000000, category := .video },
  { name := "MP3", extension := "mp3", header := [0x49, 0x44, 0x33],
    maxSize := some 50000000, category := .audio },
  { name := "WAV", extension := "wav", header := [0x52, 0x49, 0x46, 0x46],
    maxSize := some 100000000, category := .audio },
  { name := "OGG", extension := "ogg", header := [0x4F, 0x67, 0x67, 0x53],
    maxSize := some 50000000, category := .audio },
  { name := "PDF", extension := "pdf", header := [0x25, 0x50, 0x44, 0x46],
    footer := some [0x25, 0x25, 0x45, 0x4F, 0x46], maxSize := some 100000000,
    category := .document },
  { name := "DOCX/ZIP", extension := "zip", header := [0x50, 0x4B, 0x03, 0x04],
    maxSize := some 100000000, category := .document },
  { name := "RTF", extension := "rtf", header := [0x7B, 0x5C, 0x72, 0x74, 0x66],
    maxSize := some 50000000, category := .document },
  { name := "RAR", extension := "rar", header := [0x52, 0x61, 0x72, 0x21],
    maxSize := some 500000000, category := .archive },
  { name := "7Z", extension := "7z",
    header := [0x37, 0x7A, 0xBC, 0xAF, 0x27, 0x1C],
    maxSize := some 500000000, category := .archive },
  { name := "GZIP", extension := "gz", header := [0x1F, 0x8B],
    maxSize := some 500000000, category := .archive },
  { name := "EXE", extension := "exe", header := [0x4D, 0x5A],
    maxSize := some 100000000, category := .other },
  { name := "ELF", extension := "elf", header := [0x7F, 0x45, 0x4C, 0x46],
    maxSize := some 100000000, category := .other }]

/-- `CarvedFile` of `FileCarver.tsx`; the `data` Blob is the carved slice. -/
structure CarvedFile where
  type : String
  extension : String
  offset : Nat
  size : Nat
  data : List Nat
  category : Cat
  confidence : Nat
deriving DecidableEq

/-- `matchHeader` of `FileCarver.tsx`. -/
def matchHeader (data : List Nat) (offset : Nat) (header : List Nat) : Bool :=
  if offset + header.length > data.length then false
  else (List.range header.length).all fun i =>
    data.getD (offset + i) 0 == header.getD i 0

/-- `searchEnd` computed at the top of `findFooter`. -/
def footerSearchEnd (data : List Nat) (startOffset : Nat) (footer : List Nat)
    (maxSize : Nat) : Nat :=
  min (startOffset + maxSize) (data.length - footer.length)

/-- Footer comparison at one candidate position (the inner `j` loop of
`findFooter`). -/
def footerMatchAt (data : List Nat) (i : Nat) (footer : List Nat) : Bool :=
  (List.range footer.length).all fun j => data.getD (i + j) 0 == footer.getD j 0

/-- The scan loop of `findFooter`; fuel bounds the iteration count. -/
def findFooterGo (data : List Nat) (footer : List Nat) (searchEnd : Nat) :
    Nat → Nat → Option Nat
  | 0, _ => none
  | fuel + 1, i =>
    if i < searchEnd then
      if footerMatchAt data i footer then some (i + footer.length)
      else findFooterGo data footer searchEnd fuel (i + 1)
    else none

/-- `findFooter` of `FileCarver.tsx`; the `-1` sentinel is modelled as `none`.
The loop runs for at most `searchEnd ≤ data.length` steps, so `data.length`
fuel is exact. -/
def findFooter (data : List Nat) (startOffset : Nat) (footer : List Nat)
    (maxSize : Nat) : Option Nat :=
  findFooterGo data footer (footerSearchEnd data startOffset footer maxSize)
    data.length (startOffset + 10)

/-- The `endOffset`/`confidence` computation of `carveFiles` on a header match
at offset `i`: footer found → its end with confidence 95; footer defined but
not found → size capped at `maxSize` with confidence 50; no footer → capped at
`maxSize` with confidence 60. -/
def carveEnd (data : List Nat) (i : Nat) (sig : CSig) : Nat × Nat :=
  match sig.footer with
  | some f =>
    match findFooter data i f (sig.maxSize.getD 10000000) with
    | none => (min (i + sig.maxSize.getD 1000000) data.length, 50)
    | some e => (e, 95)
  | none => (min (i + sig.maxSize.getD 1000000) data.length, 60)

/-- The body of the signature loop of `carveFiles` at one offset: the first
signature (in catalog order) whose header matches and whose candidate size
passes the `100 < size < maxSize` filter produces a `CarvedFile`. -/
def trySigs (data : List Nat) (i : Nat) : List CSig → Option CarvedFile
  | [] => none
  | sig :: rest =>
    if matchHeader data i sig.header then
      if 100 < (carveEnd data i sig).1 - i ∧
          (carveEnd data i sig).1 - i < sig.maxSize.getD 100000000 then
        some { type := sig.name, extension := sig.extension, offset := i,
               size := (carveEnd data i sig).1 - i,
               data := jsSlice data i (carveEnd data i sig).1,
               category := sig.category, confidence := (carveEnd data i sig).2 }
      else trySigs data i rest
    else trySigs data i rest

/-- The outer offset loop of `carveFiles`.  On acceptance the cursor jumps to
the end of the carved region (`i = endOffset - 1; i++`), otherwise it advances
by one.  Each step advances the cursor, so `data.length + 1` fuel is enough. -/
def carveLoop (data : List Nat) (sigs : List CSig) :
    Nat → Nat → List CarvedFile
  | 0, _ => []
  | fuel + 1, i =>
    if i < data.length then
      match trySigs data i sigs with
      | some c => c :: carveLoop data sigs fuel (c.offset + c.size)
      | none => carveLoop data sigs fuel (i + 1)
    else []

/-- `carveFiles` of `FileCarver.tsx`: `enabled` is the selected-categories set;
the signature list is filtered by category before the scan. -/
def carveFiles (data : List Nat) (enabled : Cat → Bool) : List CarvedFile :=
  carveLoop data (cSignatures.filter fun s => enabled s.category)
    (data.length + 1) 0

/-! ### Bounds lemmas for the carver -/

theorem findFooterGo_sound {data footer : List Nat} {searchEnd : Nat} :
    ∀ {fuel i e}, findFooterGo data footer searchEnd fuel i = some e →
      ∃ j, j < searchEnd ∧ e = j + footer.length := by
  intro fuel
  induction fuel with
  | zero => intro i e h; simp [findFooterGo] at h
  | succ n ih =>
    intro i e h
    unfold findFooterGo at h
    by_cases hi : i < searchEnd
    · simp only [hi, if_true] at h
      by_cases hm : footerMatchAt data i footer
      · simp only [hm, if_true, Option.some.injEq] at h
        exact ⟨i, hi, h.symm⟩
      · simp only [hm, if_false] at h
        exact ih h
    · simp [hi] at h

theorem findFooter_le {data : List Nat} {startOffset : Nat} {footer : List Nat}
    {maxSize e : Nat} (h : findFooter data startOffset footer maxSize = some e) :
    e ≤ data.length := by
  obtain ⟨j, hj, rfl⟩ := findFooterGo_sound h
  unfold footerSearchEnd at hj
  omega

theorem carveEnd_le (data : List Nat) (i : Nat) (sig : CSig) :
    (carveEnd data i sig).1 ≤ data.length := by
  rcases hf : sig.footer with _ | f
  · unfold carveEnd
    simp [hf]
  · unfold carveEnd
    rcases he : findFooter data i f (sig.maxSize.getD 10000000) with _ | e
    · simp [hf, he]
    · simpa [hf, he] using findFooter_le he

theorem trySigs_bounds {data : List Nat} {i : Nat} :
    ∀ {sigs c}, trySigs data i sigs = some c →
      c.offset = i ∧ 100 < c.size ∧ i + c.size ≤ data.length := by
  intro sigs
  induction sigs with
  | nil => intro c h; simp [trySigs] at h
  | cons sig rest ih =>
    intro c h
    unfold trySigs at h
    by_cases hm : matchHeader data i sig.header
    · rw [if_pos hm] at h
      by_cases hsz : 100 < (carveEnd data i sig).1 - i ∧
          (carveEnd data i sig).1 - i < sig.maxSize.getD 100000000
      · rw [if_pos hsz] at h
        have hle := carveEnd_le data i sig
        cases h
        refine ⟨rfl, hsz.1, ?_⟩
        have h100 := hsz.1
        simp only
        omega
      · rw [if_neg hsz] at h
        exact ih h
    · rw [if_neg (by simpa using hm)] at h
      exact ih h

theorem carveLoop_bounds {data : List Nat} {sigs : List CSig} :
    ∀ {fuel i c}, c ∈ carveLoop data sigs fuel i →
      c.offset + c.size ≤ data.length := by
  intro fuel
  induction fuel with
  | zero => intro i c h; simp [carveLoop] at h
  | succ n ih =>
    intro i c h
    unfold carveLoop at h
    by_cases hi : i < data.length
    · simp only [hi, if_true] at h
      match ht : trySigs data i sigs with
      | some c0 =>
        rw [ht] at h
        rcases List.mem_cons.mp h with rfl | h
        · have := trySigs_bounds ht
          omega
        · exact ih h
      | none =>
        rw [ht] at h
        exact ih h
    · simp [hi] at h

/-- C1: every `CarvedFile` produced by `carveFiles`, for every buffer and every
enabled-category selection, has a non-negative start offset and a byte range
`[offset, offset + size)` contained in the source buffer. -/
theorem carve_in_bounds (data : List Nat) (enabled : Cat → Bool)
    (c : CarvedFile) (hc : c ∈ carveFiles data enabled) :
    0 ≤ c.offset ∧ c.offset + c.size ≤ data.length :=
  ⟨Nat.zero_le _, carveLoop_bounds hc⟩

/-- C9: (1) a signature header never matches at an offset where it would
extend past the end of the buffer; (2) every index `i + j` examined by the
footer scan (`i` below the `searchEnd` bound, `j` inside the footer) lies
strictly inside the buffer; (3) `carveFiles` is total: it returns a result on
every buffer and category selection. -/
theorem carve_access_safety :
    (∀ (data : List Nat) (offset : Nat) (header : List Nat),
      data.length < offset + header.length →
        matchHeader data offset header = false) ∧
    (∀ (data : List Nat) (s : Nat) (f : List Nat) (m i j : Nat),
      i < footerSearchEnd data s f m → j < f.length → i + j < data.length) ∧
    (∀ (data : List Nat) (enabled : Cat → Bool),
      ∃ r, carveFiles data enabled = r) := by
  refine ⟨?_, ?_, fun data enabled => ⟨_, rfl⟩⟩
  · intro data offset header h
    simp only [matchHeader, if_pos (by omega : offset + header.length > data.length)]
  · intro data s f m i j hi hj
    unfold footerSearchEnd at hi
    omega

/-- Witness for `carve_access_safety` at concrete inputs. -/
theorem carve_access_safety_witness :
    matchHeader [] 0 [1] = false ∧ (1 + 0 < 3) :=
  ⟨carve_access_safety.1 [] 0 [1] (by decide),
   carve_access_safety.2.1 [0, 0, 0] 0 [0] 5 1 0 (by decide) (by decide)⟩

/-! ### PNG carving scenarios -/

/-- The PNG header of the carving catalog. -/
def pngHeaderBytes : List Nat := [0x89, 0x50, 0x4E, 0x47, 0x0D, 0x0A, 0x1A, 0x0A]

/-- The PNG IEND footer of the carving catalog. -/
def iendFooterBytes : List Nat := [0x49, 0x45, 0x4E, 0x44, 0xAE, 0x42, 0x60, 0x82]

/-- A category selection with (exactly) the image category enabled. -/
def imageOnly : Cat → Bool := fun c => c == .image

/-- A PNG header, an `n`-byte zero body, the IEND footer, one trailing byte. -/
def pngPadded (n : Nat) : List Nat :=
  pngHeaderBytes ++ List.replicate n 0 ++ iendFooterBytes ++ [0]

theorem length_pngPadded (n : Nat) : (pngPadded n).length = n + 17 := by
  simp [pngPadded, pngHeaderBytes, iendFooterBytes]

theorem getD_replicate_zero (k i : Nat) :
    (List.replicate k (0 : Nat)).getD i 0 = 0 := by
  rcases Nat.lt_or_ge i k with h | h
  · rw [List.getD_eq_getElem _ _ (by simpa using h)]
    simp
  · exact List.getD_eq_default _ _ (by simpa using h)

theorem pngPadded_body (n i : Nat) (h8 : 8 ≤ i) (hn : i < 8 + n) :
    (pngPadded n).getD i 0 = 0 := by
  unfold pngPadded
  rw [List.getD_append _ _ _ _
    (by simp [pngHeaderBytes, iendFooterBytes]; omega)]
  rw [List.getD_append _ _ _ _ (by simp [pngHeaderBytes]; omega)]
  rw [List.getD_append_right _ _ _ _ (by simp [pngHeaderBytes]; omega)]
  exact getD_replicate_zero _ _

theorem pngPadded_footer (n j : Nat) (hj : j < 8) :
    (pngPadded n).getD (n + 8 + j) 0 = iendFooterBytes.getD j 0 := by
  unfold pngPadded
  rw [List.getD_append _ _ _ _
    (by simp [pngHeaderBytes, iendFooterBytes]; omega)]
  rw [List.getD_append_right _ _ _ _ (by simp [pngHeaderBytes])]
  have hidx : n + 8 + j - (pngHeaderBytes ++ List.replicate n 0).length = j := by
    simp [pngHeaderBytes]
  rw [hidx]

theorem matchHeader_oob_false {data : List Nat} {off : Nat} {h : List Nat}
    (hlen : data.length < off + h.length) : matchHeader data off h = false := by
  simp only [matchHeader, if_pos (by omega : off + h.length > data.length)]

/-- A buffer starting with `header` matches `header` at offset 0. -/
theorem matchHeader_prefix (header rest : List Nat) :
    matchHeader (header ++ rest) 0 header = true := by
  unfold matchHeader
  rw [if_neg (by simp)]
  apply List.all_eq_true.mpr
  intro i hi
  rw [List.mem_range] at hi
  rw [Nat.zero_add, List.getD_append _ _ _ _ hi]
  exact beq_self_eq_true _

theorem trySigs_cons_false {data : List Nat} {i : Nat} {sig : CSig}
    {rest : List CSig} (h : matchHeader data i sig.header = false) :
    trySigs data i (sig :: rest) = trySigs data i rest := by
  simp [trySigs, h]

theorem carveLoop_step (data : List Nat) (sigs : List CSig) (fuel i : Nat) :
    carveLoop data sigs (fuel + 1) i =
      if i < data.length then
        match trySigs data i sigs with
        | some c => c :: carveLoop data sigs fuel (c.offset + c.size)
        | none => carveLoop data sigs fuel (i + 1)
      else [] := rfl

theorem carveEnd_footer_found {data : List Nat} {i : Nat} {sig : CSig}
    {f : List Nat} {e : Nat} (hf : sig.footer = some f)
    (he : findFooter data i f (sig.maxSize.getD 10000000) = some e) :
    carveEnd data i sig = (e, 95) := by
  unfold carveEnd
  simp only [hf, he]

theorem trySigs_cons_accept {data : List Nat} {i : Nat} {sig : CSig}
    {rest : List CSig} (hm : matchHeader data i sig.header = true)
    (hsz : 100 < (carveEnd data i sig).1 - i ∧
      (carveEnd data i sig).1 - i < sig.maxSize.getD 100000000) :
    trySigs data i (sig :: rest) =
      some { type := sig.name, extension := sig.extension, offset := i,
             size := (carveEnd data i sig).1 - i,
             data := jsSlice data i (carveEnd data i sig).1,
             category := sig.category, confidence := (carveEnd data i sig).2 } := by
  unfold trySigs
  rw [if_pos hm, if_pos hsz]

/-- The five image-category rows of the carving catalog. -/
def cJPEG : CSig :=
  { name := "JPEG", extension := "jpg", header := [0xFF, 0xD8, 0xFF],
    footer := some [0xFF, 0xD9], maxSize := some 50000000, category := .image }

def cPNG : CSig :=
  { name := "PNG", extension := "png",
    header := [0x89, 0x50, 0x4E, 0x47, 0x0D, 0x0A, 0x1A, 0x0A],
    footer := some [0x49, 0x45, 0x4E, 0x44, 0xAE, 0x42, 0x60, 0x82],
    maxSize := some 50000000, category := .image }

def cGIF : CSig :=
  { name := "GIF", extension := "gif", header := [0x47, 0x49, 0x46, 0x38],
    footer := some [0x00, 0x3B], maxSize := some 20000000, category := .image }

def cBMP : CSig :=
  { name := "BMP", extension := "bmp", header := [0x42, 0x4D],
    maxSize := some 50000000, category := .image }

def cWebP : CSig :=
  { name := "WebP", extension := "webp", header := [0x52, 0x49, 0x46, 0x46],
    maxSize := some 50000000, category := .image }

theorem filter_image :
    cSignatures.filter (fun s => imageOnly s.category) =
      [cJPEG, cPNG, cGIF, cBMP, cWebP] := rfl

/-- The single file carved out of `pngPadded n`. -/
def pngCarved (n : Nat) : CarvedFile :=
  { type := "PNG", extension := "png", offset := 0, size := n + 16,
    data := pngHeaderBytes ++ List.replicate n 0 ++ iendFooterBytes,
    category := .image, confidence := 95 }

theorem footerMatchAt_pngPadded_body (n i : Nat) (h8 : 8 ≤ i) (hn : i < 8 + n) :
    footerMatchAt (pngPadded n) i iendFooterBytes = false := by
  apply Bool.eq_false_iff.mpr
  intro hall
  have h0 := List.all_eq_true.mp hall 0 (by simp [iendFooterBytes])
  rw [Nat.add_zero] at h0
  rw [pngPadded_body n i h8 hn] at h0
  simp [iendFooterBytes] at h0

theorem footerMatchAt_pngPadded_footer (n : Nat) :
    footerMatchAt (pngPadded n) (n + 8) iendFooterBytes = true := by
  apply List.all_eq_true.mpr
  intro j hj
  rw [List.mem_range] at hj
  have hj8 : j < 8 := by simpa [iendFooterBytes] using hj
  clear hj
  interval_cases j <;>
    (rw [pngPadded_footer _ _ (by decide)]; exact beq_self_eq_true _)

theorem findFooterGo_pngPadded (n : Nat) :
    ∀ fuel i, 10 ≤ i → i ≤ n + 8 → n + 8 - i < fuel →
      findFooterGo (pngPadded n) iendFooterBytes (n + 9) fuel i =
        some (n + 16) := by
  intro fuel
  induction fuel with
  | zero => intro i _ _ h; omega
  | succ f ih =>
    intro i h10 h8 hfuel
    unfold findFooterGo
    rw [if_pos (by omega)]
    by_cases hi : i = n + 8
    · subst hi
      rw [footerMatchAt_pngPadded_footer, if_pos rfl]
      have h16 : n + 8 + iendFooterBytes.length = n + 16 := by
        simp [iendFooterBytes]
      rw [h16]
    · rw [footerMatchAt_pngPadded_body n i (by omega) (by omega)]
      simp only [Bool.false_eq_true, if_false]
      exact ih (i + 1) (by omega) (by omega) (by omega)

theorem findFooter_pngPadded (n : Nat) (h2 : 2 ≤ n) (hcap : n + 9 ≤ 50000000) :
    findFooter (pngPadded n) 0 iendFooterBytes 50000000 = some (n + 16) := by
  unfold findFooter
  have hse : footerSearchEnd (pngPadded n) 0 iendFooterBytes 50000000 = n + 9 := by
    unfold footerSearchEnd
    rw [length_pngPadded]
    simp [iendFooterBytes]
    omega
  rw [hse]
  exact findFooterGo_pngPadded n (pngPadded n).length (0 + 10) (by omega)
    (by omega) (by rw [length_pngPadded]; omega)

theorem matchHeader_pngPadded_jpeg (n : Nat) :
    matchHeader (pngPadded n) 0 [0xFF, 0xD8, 0xFF] = false := by
  unfold matchHeader
  rw [if_neg (by rw [length_pngPadded]; simp)]
  rfl

theorem matchHeader_pngPadded_png (n : Nat) :
    matchHeader (pngPadded n) 0 pngHeaderBytes = true := by
  have h : pngPadded n =
      pngHeaderBytes ++ (List.replicate n 0 ++ (iendFooterBytes ++ [0])) := by
    simp [pngPadded, List.append_assoc]
  rw [h]
  exact matchHeader_prefix _ _

theorem carveEnd_pngPadded (n : Nat) (h2 : 2 ≤ n) (hcap : n + 9 ≤ 50000000) :
    carveEnd (pngPadded n) 0 cPNG = (n + 16, 95) :=
  carveEnd_footer_found (rfl) (findFooter_pngPadded n h2 hcap)

theorem jsSlice_pngPadded (n : Nat) :
    jsSlice (pngPadded n) 0 (n + 16) =
      pngHeaderBytes ++ List.replicate n 0 ++ iendFooterBytes := by
  unfold jsSlice pngPadded
  rw [List.drop_zero]
  have h : (pngHeaderBytes ++ List.replicate n 0 ++ iendFooterBytes).length =
      n + 16 := by
    simp [pngHeaderBytes, iendFooterBytes]
  rw [← h, List.take_left]

theorem trySigs_pngPadded (n : Nat) (h85 : 85 ≤ n) (hcap : n ≤ 49999983) :
    trySigs (pngPadded n) 0 [cJPEG, cPNG, cGIF, cBMP, cWebP] =
      some (pngCarved n) := by
  have hce := carveEnd_pngPadded n (by omega) (by omega)
  rw [trySigs_cons_false (matchHeader_pngPadded_jpeg n)]
  rw [trySigs_cons_accept (matchHeader_pngPadded_png n)
    (by rw [hce]; refine ⟨by simp; omega, ?_⟩; simp [cPNG]; omega)]
  rw [hce]
  simp [pngCarved, jsSlice_pngPadded n, cPNG]

theorem trySigs_pngPadded_end (n : Nat) :
    trySigs (pngPadded n) (n + 16) [cJPEG, cPNG, cGIF, cBMP, cWebP] = none := by
  rw [trySigs_cons_false (matchHeader_oob_false
    (by rw [length_pngPadded]; simp [cJPEG]))]
  rw [trySigs_cons_false (matchHeader_oob_false
    (by rw [length_pngPadded]; simp [cPNG]))]
  rw [trySigs_cons_false (matchHeader_oob_false
    (by rw [length_pngPadded]; simp [cGIF]))]
  rw [trySigs_cons_false (matchHeader_oob_false
    (by rw [length_pngPadded]; simp [cBMP]))]
  rw [trySigs_cons_false (matchHeader_oob_false
    (by rw [length_pngPadded]; simp [cWebP]))]
  rfl

/-- C2 counterexample: on the buffer that is exactly a well-formed PNG header
immediately followed by the IEND footer (16 bytes), `carveFiles` with the image
category enabled returns no `CarvedFile` at all (the footer search only starts
10 bytes past the header, requires a byte after the footer, and candidates of
at most 100 bytes are discarded) — not the single confidence-95 file the claim
asserts. -/
theorem carve_png_header_footer_empty :
    carveFiles (pngHeaderBytes ++ iendFooterBytes) imageOnly = [] := rfl

/-- C2 (amended): on a buffer consisting of a PNG header, an `n`-byte zero
body with `85 ≤ n ∧ n ≤ 49999983`, the IEND footer, and one trailing byte
(the footer-fit bound excludes a footer ending at the buffer end), carving
with the image category enabled returns exactly one `CarvedFile` of category
image, confidence 95, whose length is the exact byte distance from the header
start through the footer end. The bounds come from the carver's size filter
`100 < fileSize < maxSize`: the candidate spans `n + 16` bytes, so `85 ≤ n`
clears the 100-byte floor and `n ≤ 49999983` keeps it under the default
`maxSize` of 50,000,000, past which the filter discards it. -/
theorem carve_png_padded (n : Nat) (h85 : 85 ≤ n) (hcap : n ≤ 49999983) :
    carveFiles (pngPadded n) imageOnly = [pngCarved n] := by
  unfold carveFiles
  rw [filter_image, length_pngPadded]
  rw [carveLoop_step]
  rw [if_pos (by rw [length_pngPadded]; omega)]
  simp only [trySigs_pngPadded n h85 hcap]
  have hos : (pngCarved n).offset + (pngCarved n).size = n + 16 := by
    simp [pngCarved]
  rw [hos]
  rw [show carveLoop (pngPadded n) [cJPEG, cPNG, cGIF, cBMP, cWebP] (n + 17)
        (n + 16) =
      carveLoop (pngPadded n) [cJPEG, cPNG, cGIF, cBMP, cWebP] ((n + 16) + 1)
        (n + 16) from rfl]
  rw [carveLoop_step]
  rw [if_pos (by rw [length_pngPadded]; omega)]
  simp only [trySigs_pngPadded_end n]
  rw [show carveLoop (pngPadded n) [cJPEG, cPNG, cGIF, cBMP, cWebP] (n + 16)
        (n + 16 + 1) =
      carveLoop (pngPadded n) [cJPEG, cPNG, cGIF, cBMP, cWebP] ((n + 15) + 1)
        (n + 16 + 1) from rfl]
  rw [carveLoop_step]
  rw [if_neg (by rw [length_pngPadded]; omega)]

/-- Witness for `carve_png_padded` at `n = 85`. -/
theorem carve_png_padded_witness :
    carveFiles (pngPadded 85) imageOnly = [pngCarved 85] :=
  carve_png_padded 85 (by decide) (by decide)

/-- Witness for `carve_in_bounds`: the file carved out of `pngPadded 85`. -/
theorem carve_in_bounds_witness :
    0 ≤ (pngCarved 85).offset ∧
      (pngCarved 85).offset + (pngCarved 85).size ≤ (pngPadded 85).length :=
  carve_in_bounds (pngPadded 85) imageOnly (pngCarved 85) (by decide)

/-! ## File signature detector (`HashAnalyzer.tsx`) -/

/-- `Number.prototype.toString(16)` for a non-negative integer: lowercase hex
digits, fuel-based (`n + 1` fuel covers every digit). -/
def jsHexNatGo : Nat → Nat → List Char
  | 0, _ => []
  | fuel + 1, n =>
    if n < 16 then [Nat.digitChar n]
    else jsHexNatGo fuel (n / 16) ++ [Nat.digitChar (n % 16)]

def jsHexNat (n : Nat) : List Char := jsHexNatGo (n + 1) n

/-- `String.prototype.padStart(n, c)`. -/
def padStart (n : Nat) (c : Char) (s : List Char) : List Char :=
  List.replicate (n - s.length) c ++ s

/-- `b.toString(16).padStart(2, '0').toUpperCase()` applied to one byte. -/
def jsByteHex (b : Nat) : List Char :=
  (padStart 2 '0' (jsHexNat b)).map Char.toUpper

/-- `FileSignature` of `HashAnalyzer.tsx` (hex signature catalog rows). -/
structure HSig where
  hex : List Char
  extension : List Char
  description : String
  category : String
deriving DecidableEq

/-- The detection catalog `fileSignatures` of `HashAnalyzer.tsx`. -/
def hSignatures : List HSig := [
  { hex := "89504E47".data, extension := "PNG".data, description := "صورة PNG", category := "صورة" },
  { hex := "FFD8FFE0".data, extension := "JPG".data, description := "صورة JPEG (JFIF)", category := "صورة" },
  { hex := "FFD8FFE1".data, extension := "JPG".data, description := "صورة JPEG (EXIF)", category := "صورة" },
  { hex := "FFD8FFDB".data, extension := "JPG".data, description := "صورة JPEG", category := "صورة" },
  { hex := "47494638".data, extension := "GIF".data, description := "صورة GIF", category := "صورة" },
  { hex := "52494646".data, extension := "WEBP".data, description := "صورة WebP", category := "صورة" },
  { hex := "25504446".data, extension := "PDF".data, description := "مستند PDF", category := "مستند" },
  { hex := "504B0304".data, extension := "ZIP/DOCX/XLSX".data, description := "ملف مضغوط أو Office", category := "أرشيف" },
  { hex := "504B0506".data, extension := "ZIP".data, description := "ملف ZIP فارغ", category := "أرشيف" },
  { hex := "52617221".data, extension := "RAR".data, description := "أرشيف RAR", category := "أرشيف" },
  { hex := "1F8B0800".data, extension := "GZ".data, description := "ملف GZIP", category := "أرشيف" },
  { hex := "377ABCAF".data, extension := "7Z".data, description := "أرشيف 7-Zip", category := "أرشيف" },
  { hex := "4D5A9000".data, extension := "EXE".data, description := "ملف تنفيذي Windows", category := "تنفيذي" },
  { hex := "7F454C46".data, extension := "ELF".data, description := "ملف تنفيذي Linux", category := "تنفيذي" },
  { hex := "49443303".data, extension := "MP3".data, description := "ملف صوتي MP3 (ID3v2)", category := "صوت" },
  { hex := "FFFB9000".data, extension := "MP3".data, description := "ملف صوتي MP3", category := "صوت" },
  { hex := "00000020".data, extension := "MP4".data, description := "فيديو MP4", category := "فيديو" },
  { hex := "00000018".data, extension := "MP4".data, description := "فيديو MP4", category := "فيديو" },
  { hex := "1A45DFA3".data, extension := "MKV/WEBM".data, description := "فيديو Matroska/WebM", category := "فيديو" },
  { hex := "D0CF11E0".data, extension := "DOC/XLS/PPT".data, description := "مستند Office قديم", category := "مستند" }]

/-- `DetectionResult` of `HashAnalyzer.tsx`. -/
structure DetectionResult where
  detectedType : Option HSig
  actualExtension : List Char
  headerHex : List Char
  isMatch : Bool
  isSuspicious : Bool
deriving DecidableEq

/-- `String.prototype.includes`: `sub` occurs contiguously in `s`. -/
def jsIncludes (s sub : List Char) : Bool :=
  (List.range (s.length + 1)).any fun k => sub.isPrefixOf (s.drop k)

/-- `Array.from(bytes).map(b => hex(b)).join('')` over `buffer.slice(0, 8)`. -/
def jsHeaderHex (buffer : List Nat) : List Char :=
  ((buffer.take 8).map jsByteHex).flatten

/-- The catalog loop of `detectSignature`: the first signature whose `hex`
string is a prefix of `headerHex` (JS `startsWith`). -/
def detectedTypeOf (buffer : List Nat) : Option HSig :=
  hSignatures.find? fun sig => sig.hex.isPrefixOf (jsHeaderHex buffer)

/-- The `isMatch` expression of `detectSignature`: substring containment of the
uppercased declared extension in the matched `extension` field (JS
`String.prototype.includes`), or membership in the Office alias list for the
`ZIP/DOCX/XLSX` row; `undefined || false` for no match. -/
def isMatchOf (detected : Option HSig) (actualExt : List Char) : Bool :=
  match detected with
  | none => false
  | some d =>
    jsIncludes d.extension actualExt ||
      (d.extension == "ZIP/DOCX/XLSX".data &&
        ["DOCX".data, "XLSX".data, "PPTX".data, "ZIP".data].contains actualExt)

/-- `detectSignature` of `HashAnalyzer.tsx`. -/
def detectSignature (buffer : List Nat) (extension : List Char) :
    DetectionResult :=
  { detectedType := detectedTypeOf buffer,
    actualExtension := extension.map Char.toUpper,
    headerHex := jsHeaderHex buffer,
    isMatch := isMatchOf (detectedTypeOf buffer) (extension.map Char.toUpper),
    isSuspicious := (detectedTypeOf buffer).isSome &&
      !(isMatchOf (detectedTypeOf buffer) (extension.map Char.toUpper)) }

/-- Hex digit value of an ASCII character. -/
def hexVal (c : Char) : Nat :=
  if 48 ≤ c.toNat ∧ c.toNat ≤ 57 then c.toNat - 48
  else if 65 ≤ c.toNat ∧ c.toNat ≤ 70 then c.toNat - 55
  else if 97 ≤ c.toNat ∧ c.toNat ≤ 102 then c.toNat - 87
  else 0

/-- The byte sequence denoted by a hex signature string. -/
def bytesOfHex : List Char → List Nat
  | a :: b :: rest => (hexVal a * 16 + hexVal b) :: bytesOfHex rest
  | _ => []

/-- Modelled from the spec: the set of declared extensions a signature
"accepts" — the slash-separated components of its `extension` field, plus
`PPTX` for the `ZIP/DOCX/XLSX` Office signature (the spec's alias set
`{DOCX, XLSX, PPTX, ZIP}` for that row).  Used only to compare the spec's
alias-set reading of `isExtensionMismatch` against the code. -/
def specAliases (sig : HSig) : List (List Char) :=
  sig.extension.splitOn '/' ++
    (if sig.extension = "ZIP/DOCX/XLSX".data then ["PPTX".data] else [])

/-! ### Detector lemmas -/

theorem jsByteHex_eq (b : Nat) (hb : b < 256) :
    jsByteHex b =
      [(Nat.digitChar (b / 16)).toUpper, (Nat.digitChar (b % 16)).toUpper] := by
  by_cases h16 : b < 16
  · have hd : b / 16 = 0 := Nat.div_eq_of_lt h16
    have hm : b % 16 = b := Nat.mod_eq_of_lt h16
    unfold jsByteHex jsHexNat jsHexNatGo
    rw [if_pos h16, hd, hm]
    rfl
  · have hdiv : b / 16 < 16 := by omega
    obtain ⟨k, rfl⟩ : ∃ k, b = k + 1 := ⟨b - 1, by omega⟩
    unfold jsByteHex jsHexNat
    rw [jsHexNatGo, if_neg h16, jsHexNatGo, if_pos hdiv]
    rfl

theorem jsByteHex_length (b : Nat) (hb : b < 256) : (jsByteHex b).length = 2 := by
  rw [jsByteHex_eq b hb]
  rfl

theorem digitChar_upper_inj :
    ∀ u < 16, ∀ v < 16,
      (Nat.digitChar u).toUpper = (Nat.digitChar v).toUpper → u = v := by decide

theorem jsByteHex_inj (b : Nat) (hb : b < 256) (x : Nat) (hx : x < 256)
    (h : jsByteHex b = jsByteHex x) : b = x := by
  rw [jsByteHex_eq b hb, jsByteHex_eq x hx] at h
  have h1 : (Nat.digitChar (b / 16)).toUpper = (Nat.digitChar (x / 16)).toUpper := by
    injection h
  have h2 : (Nat.digitChar (b % 16)).toUpper = (Nat.digitChar (x % 16)).toUpper := by
    injection h with _ h2
    injection h2
  have e1 := digitChar_upper_inj (b / 16) (by omega) (x / 16) (by omega) h1
  have e2 := digitChar_upper_inj (b % 16) (by omega) (x % 16) (by omega) h2
  omega

theorem hexVal_lt_16 (c : Char) : hexVal c < 16 := by
  unfold hexVal
  split_ifs <;> omega

theorem bytesOfHex_lt (s : List Char) : ∀ x ∈ bytesOfHex s, x < 256 := by
  induction s using bytesOfHex.induct with
  | case1 a b rest ih =>
    intro x hx
    rw [bytesOfHex] at hx
    rcases List.mem_cons.mp hx with rfl | hx
    · have ha := hexVal_lt_16 a
      have hb := hexVal_lt_16 b
      omega
    · exact ih x hx
  | case2 s h =>
    intro x hx
    rcases s with _ | ⟨a, _ | ⟨b, t⟩⟩
    · simp [bytesOfHex] at hx
    · simp [bytesOfHex] at hx
    · exact absurd rfl (h a b t)

theorem isPrefixOf_append_of_length_eq {p q a c : List Char}
    (h : p.length = q.length) :
    (p ++ a).isPrefixOf (q ++ c) = (p == q && a.isPrefixOf c) := by
  induction p generalizing q with
  | nil =>
    cases q with
    | nil => simp [List.isPrefixOf]
    | cons y q => simp at h
  | cons x p ih =>
    cases q with
    | nil => simp at h
    | cons y q =>
      show (x == y && (p ++ a).isPrefixOf (q ++ c)) = _
      rw [ih (by simpa using h)]
      show _ = ((x == y && p == q) && a.isPrefixOf c)
      rw [Bool.and_assoc]

theorem hex_prefix_eq (bs : List Nat) (hbs : ∀ b ∈ bs, b < 256) :
    ∀ (xs : List Nat), (∀ b ∈ xs, b < 256) →
      ((bs.map jsByteHex).flatten).isPrefixOf ((xs.map jsByteHex).flatten) =
        bs.isPrefixOf xs := by
  induction bs with
  | nil => intro xs _; simp [List.isPrefixOf]
  | cons b bs ih =>
    intro xs hxs
    cases xs with
    | nil =>
      show ((jsByteHex b ++ (bs.map jsByteHex).flatten).isPrefixOf []) = false
      have h2 := jsByteHex_length b (hbs b (by simp))
      rcases hj : jsByteHex b with _ | ⟨c, t⟩
      · rw [hj] at h2; simp at h2
      · rfl
    | cons x xs =>
      rw [List.map_cons, List.map_cons, List.flatten_cons, List.flatten_cons]
      rw [isPrefixOf_append_of_length_eq
        (by rw [jsByteHex_length b (hbs b (by simp)),
                jsByteHex_length x (hxs x (by simp))])]
      rw [ih (fun y hy => hbs y (by simp [hy])) xs
        (fun y hy => hxs y (by simp [hy]))]
      have hbx : (jsByteHex b == jsByteHex x) = (b == x) := by
        by_cases hbe : b = x
        · subst hbe; simp
        · have : jsByteHex b ≠ jsByteHex x := fun hc =>
            hbe (jsByteHex_inj b (hbs b (by simp)) x (hxs x (by simp)) hc)
          simp [hbe, this]
      rw [hbx]
      rfl

theorem hSignatures_hex_wf :
    ∀ sig ∈ hSignatures, ((bytesOfHex sig.hex).map jsByteHex).flatten = sig.hex := by
  decide

theorem find?_congr {α} {p q : α → Bool} :
    ∀ (l : List α), (∀ s ∈ l, p s = q s) → l.find? p = l.find? q := by
  intro l
  induction l with
  | nil => intro _; rfl
  | cons a t ih =>
    intro h
    rw [List.find?_cons, List.find?_cons, h a (by simp)]
    cases q a
    · exact ih fun s hs => h s (by simp [hs])
    · rfl

theorem find?_eq_of_first {α} {p : α → Bool} :
    ∀ (l : List α) (j : Nat) (hj : j < l.length),
      p (l.get ⟨j, hj⟩) = true →
      (∀ k (hk : k < j), p (l.get ⟨k, by omega⟩) = false) →
      l.find? p = some (l.get ⟨j, hj⟩) := by
  intro l
  induction l with
  | nil => intro j hj; simp at hj
  | cons a t ih =>
    intro j hj hp hprev
    cases j with
    | zero =>
      rw [List.find?_cons]
      simp only [List.get] at hp
      rw [hp]
      rfl
    | succ j =>
      rw [List.find?_cons]
      have h0 := hprev 0 (by omega)
      simp only [List.get] at h0
      rw [h0]
      exact ih j (by simpa using hj) hp
        (fun k hk => hprev (k + 1) (by omega))

theorem take_all_lt {buffer : List Nat} (hb : ∀ b ∈ buffer, b < 256) :
    ∀ x ∈ buffer.take 8, x < 256 :=
  fun x hx => hb x (List.take_subset _ _ hx)

/-- C5: `detectSignature` returns the first catalog signature (in declared
order) whose header byte sequence is a prefix of the first 8 observed bytes:
(1) the detected signature is exactly `List.find?` of the byte-prefix predicate
over the catalog; (2) whenever the signature at index `j` matches and no
earlier one does, index `j` is returned (catalog order is the tie-break). -/
theorem detect_first_match :
    (∀ (buffer : List Nat) (ext : List Char), (∀ b ∈ buffer, b < 256) →
      (detectSignature buffer ext).detectedType =
        hSignatures.find? fun sig =>
          (bytesOfHex sig.hex).isPrefixOf (buffer.take 8)) ∧
    (∀ (buffer : List Nat) (ext : List Char), (∀ b ∈ buffer, b < 256) →
      ∀ j (hj : j < hSignatures.length),
        (bytesOfHex (hSignatures.get ⟨j, hj⟩).hex).isPrefixOf (buffer.take 8) =
          true →
        (∀ k (hk : k < j),
          (bytesOfHex (hSignatures.get ⟨k, by omega⟩).hex).isPrefixOf
            (buffer.take 8) = false) →
        (detectSignature buffer ext).detectedType =
          some (hSignatures.get ⟨j, hj⟩)) := by
  have main : ∀ (buffer : List Nat) (ext : List Char), (∀ b ∈ buffer, b < 256) →
      (detectSignature buffer ext).detectedType =
        hSignatures.find? fun sig =>
          (bytesOfHex sig.hex).isPrefixOf (buffer.take 8) := by
    intro buffer ext hb
    show detectedTypeOf buffer = _
    unfold detectedTypeOf
    apply find?_congr
    intro sig hm
    unfold jsHeaderHex
    have h := hex_prefix_eq (bytesOfHex sig.hex) (bytesOfHex_lt sig.hex)
      (buffer.take 8) (take_all_lt hb)
    rw [hSignatures_hex_wf sig hm] at h
    exact h
  refine ⟨main, ?_⟩
  intro buffer ext hb j hj hp hprev
  rw [main buffer ext hb]
  exact find?_eq_of_first hSignatures j hj hp hprev

/-- Witness for `detect_first_match` on a concrete JPEG/EXIF prefix. -/
theorem detect_first_match_witness :
    (detectSignature [0xFF, 0xD8, 0xFF, 0xE1] []).detectedType =
      hSignatures.find? fun sig =>
        (bytesOfHex sig.hex).isPrefixOf ([0xFF, 0xD8, 0xFF, 0xE1].take 8) :=
  detect_first_match.1 [0xFF, 0xD8, 0xFF, 0xE1] [] (by decide)

/-- The first row of the detection catalog (the PNG signature). -/
def hPNGrow : HSig :=
  { hex := "89504E47".data, extension := "PNG".data,
    description := "صورة PNG", category := "صورة" }

/-- C4 counterexample: the PNG header with declared extension `"n"`.  The
catalog matches the PNG signature, the uppercased extension `"N"` is not among
the spec's alias set for that signature (`{PNG}`), yet `isSuspicious`
(`isExtensionMismatch`) is `false`, because the code tests substring
containment (`"PNG".includes("N")`), not alias-set membership. -/
theorem detect_substring_not_alias :
    (detectSignature [0x89, 0x50, 0x4E, 0x47, 0, 0, 0, 0] ['n']).detectedType =
      some hPNGrow ∧
    ¬ (['n'].map Char.toUpper ∈ specAliases hPNGrow) ∧
    (detectSignature [0x89, 0x50, 0x4E, 0x47, 0, 0, 0, 0] ['n']).isSuspicious =
      false := by decide

/-- C4 (amended): `isSuspicious` (`isExtensionMismatch`) is true iff a catalog
signature matched and the uppercased declared extension is neither a substring
of the matched signature's `extension` field nor (for the `ZIP/DOCX/XLSX` row)
one of `DOCX`, `XLSX`, `PPTX`, `ZIP`; with no match it is false and the
detected signature is `none`; and every catalog signature's own header bytes
with declared extension `"xyz"` are flagged as a mismatch. -/
theorem detect_mismatch_iff :
    (∀ (buffer : List Nat) (ext : List Char),
      ((detectSignature buffer ext).isSuspicious = true ↔
        ∃ d, (detectSignature buffer ext).detectedType = some d ∧
          jsIncludes d.extension (ext.map Char.toUpper) = false ∧
          (d.extension == "ZIP/DOCX/XLSX".data &&
            ["DOCX".data, "XLSX".data, "PPTX".data,
              "ZIP".data].contains (ext.map Char.toUpper)) = false)) ∧
    (∀ (buffer : List Nat) (ext : List Char),
      (detectSignature buffer ext).detectedType = none →
        (detectSignature buffer ext).isSuspicious = false) ∧
    (∀ sig ∈ hSignatures,
      (detectSignature (bytesOfHex sig.hex) ['x', 'y', 'z']).isSuspicious =
        true) := by
  refine ⟨?_, ?_, by decide⟩
  · intro buffer ext
    constructor
    · intro h
      have h' : ((detectedTypeOf buffer).isSome &&
          !(isMatchOf (detectedTypeOf buffer) (ext.map Char.toUpper))) = true := h
      rcases hd : detectedTypeOf buffer with _ | d
      · rw [hd] at h'
        exact absurd h' (by simp)
      · rw [hd] at h'
        simp only [isMatchOf, Option.isSome_some, Bool.true_and,
          Bool.not_eq_true', Bool.or_eq_false_iff] at h'
        exact ⟨d, hd, h'.1, h'.2⟩
    · rintro ⟨d, hd, h1, h2⟩
      have hd' : detectedTypeOf buffer = some d := hd
      show ((detectedTypeOf buffer).isSome &&
        !(isMatchOf (detectedTypeOf buffer) (ext.map Char.toUpper))) = true
      rw [hd']
      show (true && !(jsIncludes d.extension (ext.map Char.toUpper) ||
        (d.extension == "ZIP/DOCX/XLSX".data &&
          ["DOCX".data, "XLSX".data, "PPTX".data, "ZIP".data].contains
            (ext.map Char.toUpper)))) = true
      rw [h1, h2]
      rfl
  · intro buffer ext hnone
    have hd : detectedTypeOf buffer = none := hnone
    show ((detectedTypeOf buffer).isSome &&
      !(isMatchOf (detectedTypeOf buffer) (ext.map Char.toUpper))) = false
    rw [hd]
    rfl

/-- Witness for `detect_mismatch_iff`: the PNG catalog row with extension
`"xyz"` is flagged. -/
theorem detect_mismatch_iff_witness :
    (detectSignature (bytesOfHex hPNGrow.hex) ['x', 'y', 'z']).isSuspicious =
      true :=
  detect_mismatch_iff.2.2 hPNGrow (by decide)

/-! ## EXIF/GPS extractor (`GPSExtractor.tsx`)

JavaScript numbers are modelled by `JSNum`: exact rationals plus the IEEE
non-finite values, with division by zero producing Infinity/NaN exactly as in
JS (rational arithmetic differs from float64 only by rounding, which no
sign/nullness/finiteness fact proved below depends on). -/

inductive JSNum
  | fin (q : ℚ)
  | inf
  | ninf
  | nan
deriving DecidableEq

/-- JavaScript `/` on numbers. -/
def jsDiv : JSNum → JSNum → JSNum
  | .nan, _ => .nan
  | _, .nan => .nan
  | .fin a, .fin b =>
    if b = 0 then (if a = 0 then .nan else if 0 < a then .inf else .ninf)
    else .fin (a / b)
  | .inf, .fin b => if b < 0 then .ninf else .inf
  | .ninf, .fin b => if b < 0 then .inf else .ninf
  | .fin _, .inf => .fin 0
  | .fin _, .ninf => .fin 0
  | _, _ => .nan

/-- JavaScript `+` on numbers. -/
def jsAdd : JSNum → JSNum → JSNum
  | .nan, _ => .nan
  | _, .nan => .nan
  | .inf, .ninf => .nan
  | .ninf, .inf => .nan
  | .inf, _ => .inf
  | _, .inf => .inf
  | .ninf, _ => .ninf
  | _, .ninf => .ninf
  | .fin a, .fin b => .fin (a + b)

/-- JavaScript unary `-`. -/
def jsNeg : JSNum → JSNum
  | .fin q => .fin (-q)
  | .inf => .ninf
  | .ninf => .inf
  | .nan => .nan

/-- `x < 0` would hold in JS (NaN is not negative). -/
def isNegJS : JSNum → Bool
  | .fin q => decide (q < 0)
  | .ninf => true
  | _ => false

def JSNum.isFinite : JSNum → Bool
  | .fin _ => true
  | _ => false

/-- `Math.floor`. -/
def jsFloor : JSNum → JSNum
  | .fin q => .fin ⌊q⌋
  | .inf => .inf
  | .ninf => .ninf
  | .nan => .nan

/-- `Math.floor(x).toString()` as done for GPS timestamps. -/
def jsFloorChars : JSNum → List Char
  | .fin q => (toString (⌊q⌋ : Int)).data
  | .inf => "Infinity".data
  | .ninf => "-Infinity".data
  | .nan => "NaN".data

/-- `GPSData` of `GPSExtractor.tsx`. -/
structure GPSData where
  latitude : Option JSNum
  longitude : Option JSNum
  altitude : Option JSNum
  latitudeRef : Char
  longitudeRef : Char
  timestamp : Option (List Char)
  datestamp : Option (List Char)
  direction : Option JSNum
  speed : Option JSNum
  accuracy : List Char
deriving DecidableEq

/-- The initial `gpsData` record of `parseGPSIFD`. -/
def initGPS : GPSData :=
  { latitude := none, longitude := none, altitude := none, latitudeRef := 'N',
    longitudeRef := 'E', timestamp := none, datestamp := none,
    direction := none, speed := none, accuracy := "Unknown".data }

/-- `readGPSCoordinate` of `GPSExtractor.tsx`: three rationals
degrees/minutes/seconds, `deg + min/60 + sec/3600`; an out-of-bounds read is
caught and yields `null`. -/
def readGPSCoordinate (d : List Nat) (offset : Nat) (le : Bool) : Option JSNum :=
  match dvU32 le d offset, dvU32 le d (offset + 4), dvU32 le d (offset + 8),
      dvU32 le d (offset + 12), dvU32 le d (offset + 16),
      dvU32 le d (offset + 20) with
  | .ok dn, .ok dd, .ok mn, .ok md, .ok sn, .ok sd =>
    some (jsAdd (jsAdd (jsDiv (.fin dn) (.fin dd))
        (jsDiv (jsDiv (.fin mn) (.fin md)) (.fin 60)))
      (jsDiv (jsDiv (.fin sn) (.fin sd)) (.fin 3600)))
  | _, _, _, _, _, _ => none

/-- Lift a `DataView` read into the GPS-IFD parse: a thrown `RangeError` is
caught by `parseGPSIFD`'s `try`, keeping the state accumulated so far (the
error payload). -/
def rdE {α} (g : GPSData) : Except Unit α → Except GPSData α
  | .ok v => .ok v
  | .error _ => .error g

/-- Ten sequential `getUint8` reads (the `GPSDateStamp` loop). -/
def dvBytes (d : List Nat) : Nat → Nat → Except Unit (List Nat)
  | _, 0 => .ok []
  | off, k + 1 => do
    let b ← dvU8 d off
    let rest ← dvBytes d (off + 1) k
    pure (b :: rest)

/-- The `switch (tag)` body of `parseGPSIFD`'s entry loop. -/
def processGPSEntry (d : List Nat) (le : Bool) (g : GPSData) (tag : Nat)
    (valueOffset : Nat) : Except GPSData GPSData :=
  if tag = 0x0001 then do
    let b ← rdE g (dvU8 d valueOffset)
    pure { g with latitudeRef := Char.ofNat b }
  else if tag = 0x0002 then
    pure { g with latitude := readGPSCoordinate d valueOffset le }
  else if tag = 0x0003 then do
    let b ← rdE g (dvU8 d valueOffset)
    pure { g with longitudeRef := Char.ofNat b }
  else if tag = 0x0004 then
    pure { g with longitude := readGPSCoordinate d valueOffset le }
  else if tag = 0x0006 then do
    let altNum ← rdE g (dvU32 le d valueOffset)
    let altDen ← rdE g (dvU32 le d (valueOffset + 4))
    pure { g with altitude :=
      if altDen > 0 then some (jsDiv (.fin altNum) (.fin altDen)) else none }
  else if tag = 0x0007 then do
    let hn ← rdE g (dvU32 le d valueOffset)
    let hd ← rdE g (dvU32 le d (valueOffset + 4))
    let mn ← rdE g (dvU32 le d (valueOffset + 8))
    let md ← rdE g (dvU32 le d (valueOffset + 12))
    let sn ← rdE g (dvU32 le d (valueOffset + 16))
    let sd ← rdE g (dvU32 le d (valueOffset + 20))
    let ts := padStart 2 '0' (jsFloorChars (jsDiv (.fin hn) (.fin hd))) ++
      ':' :: padStart 2 '0' (jsFloorChars (jsDiv (.fin mn) (.fin md))) ++
      ':' :: padStart 2 '0' (jsFloorChars (jsDiv (.fin sn) (.fin sd)))
    pure { g with timestamp := some ts }
  else if tag = 0x0011 then do
    let dirNum ← rdE g (dvU32 le d valueOffset)
    let dirDen ← rdE g (dvU32 le d (valueOffset + 4))
    pure { g with direction :=
      if dirDen > 0 then some (jsDiv (.fin dirNum) (.fin dirDen)) else none }
  else if tag = 0x001D then do
    let cs ← rdE g (dvBytes d valueOffset 10)
    let ds := (cs.map Char.ofNat).map fun c => if c = ':' then '-' else c
    pure { g with datestamp := some ds }
  else
    pure g

/-- The `valueOffset` computation of a GPS-IFD entry: a RATIONAL value wider
than 4 bytes lives at an offset relative to the TIFF start (the offset read
itself can throw), otherwise inline at `entryOffset + 8`. -/
def gpsValueOffset (d : List Nat) (tiffStart : Nat) (le : Bool)
    (entryOffset ty numValues : Nat) : Except Unit Nat :=
  if ty = 5 ∧ numValues * 8 > 4 then
    match dvU32 le d (entryOffset + 8) with
    | .error e => .error e
    | .ok off => .ok (tiffStart + off)
  else .ok (entryOffset + 8)

/-- The entry loop of `parseGPSIFD`; a thrown read aborts the loop carrying
the state accumulated so far (the `.error` payload). -/
def gpsLoop (d : List Nat) (tiffStart : Nat) (le : Bool) (ifdOffset : Nat) :
    Nat → Nat → GPSData → Except GPSData GPSData
  | 0, _, g => .ok g
  | k + 1, i, g =>
    match dvU16 le d (ifdOffset + 2 + i * 12) with
    | .error _ => .error g
    | .ok tag =>
      match dvU16 le d (ifdOffset + 2 + i * 12 + 2) with
      | .error _ => .error g
      | .ok ty =>
        match dvU32 le d (ifdOffset + 2 + i * 12 + 4) with
        | .error _ => .error g
        | .ok numValues =>
          match gpsValueOffset d tiffStart le (ifdOffset + 2 + i * 12) ty
              numValues with
          | .error _ => .error g
          | .ok valueOffset =>
            match processGPSEntry d le g tag valueOffset with
            | .error g2 => .error g2
            | .ok g2 => gpsLoop d tiffStart le ifdOffset k (i + 1) g2

/-- `if (gpsData.latitude !== null && gpsData.latitudeRef === 'S') latitude =
-latitude` of `parseGPSIFD`. -/
def applyLatRef (g : GPSData) : GPSData :=
  if g.latitude ≠ none ∧ g.latitudeRef = 'S' then
    { g with latitude := g.latitude.map jsNeg } else g

/-- The analogous `'W'` negation for longitude. -/
def applyLonRef (g : GPSData) : GPSData :=
  if g.longitude ≠ none ∧ g.longitudeRef = 'W' then
    { g with longitude := g.longitude.map jsNeg } else g

/-- The "determine accuracy" step of `parseGPSIFD`. -/
def applyAccuracy (g : GPSData) : GPSData :=
  if g.latitude ≠ none ∧ g.longitude ≠ none then
    { g with accuracy := "GPS".data } else g

/-- The "apply reference directions / determine accuracy" tail of
`parseGPSIFD` (only reached when the entry loop raised no exception). -/
def applyGPSRefs (g : GPSData) : GPSData :=
  applyAccuracy (applyLonRef (applyLatRef g))

/-- `parseGPSIFD` of `GPSExtractor.tsx`. -/
def parseGPSIFD (d : List Nat) (ifdOffset : Nat) (tiffStart : Nat) (le : Bool) :
    GPSData :=
  match dvU16 le d ifdOffset with
  | .error _ => initGPS
  | .ok count =>
    match gpsLoop d tiffStart le ifdOffset count 0 initGPS with
    | .error g => g
    | .ok g => applyGPSRefs g

/-- The character-collecting loop of `readExifString`; fuel is the loop bound
`min(count - 1, 100)`. -/
def readStrGo (d : List Nat) (valueOffset : Nat) : Nat → Nat → Except Unit (List Char)
  | 0, _ => .ok []
  | k + 1, i => do
    let c ← dvU8 d (valueOffset + i)
    if c = 0 then pure []
    else do
      let rest ← readStrGo d valueOffset k (i + 1)
      pure (Char.ofNat c :: rest)

/-- `readExifString` of `GPSExtractor.tsx`: its `try/catch` yields `null` on
any out-of-bounds read; `str.trim() || null` yields `null` for the empty
string. -/
def readExifString (d : List Nat) (entryOffset : Nat) (tiffStart : Nat)
    (le : Bool) : Option (List Char) :=
  match (do
    let count ← dvU32 le d (entryOffset + 4)
    let valueOffset ←
      if count ≤ 4 then pure (entryOffset + 8)
      else do
        let off ← dvU32 le d (entryOffset + 8)
        pure (tiffStart + off)
    readStrGo d valueOffset (min (count - 1) 100) 0 : Except Unit (List Char)) with
  | .error _ => none
  | .ok s =>
    let t := jsTrim s
    if t = [] then none else some t

/-- The IFD0 tag accumulator of `parseExifGPS` (camera fields, `dateTime`,
GPS/EXIF IFD pointers). -/
structure Ifd0State where
  make : Option (List Char)
  model : Option (List Char)
  software : Option (List Char)
  dateTime : Option (List Char)
  gpsIFDPointer : Nat
  exifIFDPointer : Nat
deriving DecidableEq

def initIfd0 : Ifd0State :=
  { make := none, model := none, software := none, dateTime := none,
    gpsIFDPointer := 0, exifIFDPointer := 0 }

/-- The IFD0 entry loop of `parseExifGPS`; reads are unguarded, so an
out-of-bounds read propagates out of the whole parse. -/
def ifd0Loop (d : List Nat) (le : Bool) (tiffStart : Nat) (ifd0Offset : Nat) :
    Nat → Nat → Ifd0State → Except Unit Ifd0State
  | 0, _, st => .ok st
  | k + 1, i, st => do
    let entryOffset := ifd0Offset + 2 + i * 12
    let tag ← dvU16 le d entryOffset
    let st2 ←
      if tag = 0x010F then
        pure { st with make := readExifString d entryOffset tiffStart le }
      else if tag = 0x0110 then
        pure { st with model := readExifString d entryOffset tiffStart le }
      else if tag = 0x0131 then
        pure { st with software := readExifString d entryOffset tiffStart le }
      else if tag = 0x0132 then
        pure { st with dateTime := readExifString d entryOffset tiffStart le }
      else if tag = 0x8825 then do
        let v ← dvU32 le d (entryOffset + 8)
        pure { st with gpsIFDPointer := v }
      else if tag = 0x8769 then do
        let v ← dvU32 le d (entryOffset + 8)
        pure { st with exifIFDPointer := v }
      else pure st
    ifd0Loop d le tiffStart ifd0Offset k (i + 1) st2

/-- The record `parseExifGPS` returns (`cameraInfo` flattened into `make`,
`model`, `software`). -/
structure ExifResult where
  gpsData : Option GPSData
  make : Option (List Char)
  model : Option (List Char)
  software : Option (List Char)
  dateTime : Option (List Char)
  hasGPS : Bool
deriving DecidableEq

def initExif : ExifResult :=
  { gpsData := none, make := none, model := none, software := none,
    dateTime := none, hasGPS := false }

/-- The marker-segment scan loop of `parseExifGPS` (`while offset <
byteLength - 2`).  Each iteration advances `offset` by at least 2 or breaks,
so `d.length` fuel covers every iteration. -/
def exifScan (d : List Nat) : Nat → Nat → Except Unit ExifResult
  | 0, _ => .ok initExif
  | fuel + 1, offset =>
    if offset < d.length - 2 then do
      let marker ← dvU16 false d offset
      if marker = 0xFFE1 then do
        let _segLen ← dvU16 false d (offset + 2)
        let exifStart := offset + 4
        let e0 ← dvU8 d exifStart
        let e1 ← dvU8 d (exifStart + 1)
        let e2 ← dvU8 d (exifStart + 2)
        let e3 ← dvU8 d (exifStart + 3)
        if [Char.ofNat e0, Char.ofNat e1, Char.ofNat e2, Char.ofNat e3] =
            "Exif".data then do
          let tiffStart := exifStart + 6
          let bom ← dvU16 false d tiffStart
          let le := bom == 0x4949
          let ifdRel ← dvU32 le d (tiffStart + 4)
          let ifd0Offset := tiffStart + ifdRel
          let ifd0Count ← dvU16 le d ifd0Offset
          let st ← ifd0Loop d le tiffStart ifd0Offset ifd0Count 0 initIfd0
          if st.gpsIFDPointer > 0 then
            let g := parseGPSIFD d (tiffStart + st.gpsIFDPointer) tiffStart le
            pure { gpsData := some g, make := st.make, model := st.model,
                   software := st.software, dateTime := st.dateTime,
                   hasGPS := g.latitude.isSome && g.longitude.isSome }
          else
            pure { gpsData := none, make := st.make, model := st.model,
                   software := st.software, dateTime := st.dateTime,
                   hasGPS := false }
        else pure initExif
      else if marker &&& 0xFF00 = 0xFF00 then do
        let segLen ← dvU16 false d (offset + 2)
        exifScan d fuel (offset + 2 + segLen)
      else pure initExif
    else pure initExif

/-- `parseExifGPS` of `GPSExtractor.tsx`: the unguarded `getUint16(0)` throws
on buffers shorter than 2 bytes; a buffer not starting with the JPEG SOI
marker `0xFFD8` returns the empty record. -/
def parseExifGPS (d : List Nat) : Except Unit ExifResult := do
  let soi ← dvU16 false d 0
  if soi ≠ 0xFFD8 then pure initExif
  else exifScan d d.length 2

/-! ### EXIF/GPS lemmas -/

theorem rdE_ok {α} (g : GPSData) (v : α) : rdE g (.ok v) = .ok v := rfl

theorem rdE_error {α} (g : GPSData) (e : Unit) :
    rdE g (Except.error e) = (Except.error g : Except GPSData α) := rfl

theorem exbind_ok {ε α β} (v : α) (f : α → Except ε β) :
    (Except.ok v : Except ε α) >>= f = f v := rfl

theorem exbind_error {ε α β} (e : ε) (f : α → Except ε β) :
    (Except.error e : Except ε α) >>= f = .error e := rfl

/-- C7 counterexample: the 5-byte buffer `FF D8 FF E1 00` is a JPEG SOI
followed by a truncated APP1 marker; reading the 16-bit segment length at
offset 4 is out of bounds and the exception is not caught anywhere inside
`parseExifGPS`, so the extraction faults instead of returning a structured
record. -/
theorem parseExif_oob_fault :
    parseExifGPS [0xFF, 0xD8, 0xFF, 0xE1, 0x00] = .error () := rfl

/-- C7 (amended): buffers shorter than 2 bytes always fault (the unguarded
SOI read), and every buffer of length at least 2 whose first two bytes are not
the JPEG SOI marker `FF D8` yields the empty structured record (the
not-a-JPEG outcome). -/
theorem parseExif_structured :
    (∀ d : List Nat, d.length < 2 → parseExifGPS d = .error ()) ∧
    (∀ d : List Nat, 2 ≤ d.length →
      d.getD 0 0 * 256 + d.getD 1 0 ≠ 0xFFD8 →
      parseExifGPS d = .ok initExif) := by
  constructor
  · intro d hlen
    unfold parseExifGPS
    have h : dvU16 false d 0 = .error () := by
      unfold dvU16
      rw [if_neg (by omega)]
    rw [h, exbind_error]
  · intro d hlen hne
    unfold parseExifGPS
    have h : dvU16 false d 0 = .ok (d.getD 0 0 * 256 + d.getD 1 0) := by
      unfold dvU16
      rw [if_pos (by omega)]
      rfl
    rw [h, exbind_ok]
    rw [if_pos hne]
    rfl

/-- Witness for `parseExif_structured` on the empty and all-zero buffers. -/
theorem parseExif_structured_witness :
    parseExifGPS [] = .error () ∧ parseExifGPS [0, 0] = .ok initExif :=
  ⟨parseExif_structured.1 [] (by decide),
   parseExif_structured.2 [0, 0] (by decide) (by decide)⟩

/-- A synthetic JPEG: SOI, APP1 `Exif`, little-endian TIFF, one IFD0 entry
pointing at a GPS sub-IFD whose single entry is a GPSLatitude with rationals
`1/0`, `0/0`, `0/0` (all denominators zero). -/
def zeroDenomJpeg : List Nat :=
  [0xFF, 0xD8, 0xFF, 0xE1, 0x00, 0x00,
   0x45, 0x78, 0x69, 0x66, 0x00, 0x00,
   0x49, 0x49, 0x2A, 0x00,
   0x08, 0x00, 0x00, 0x00,
   0x01, 0x00,
   0x25, 0x88, 0x04, 0x00, 0x01, 0x00, 0x00, 0x00, 0x1A, 0x00, 0x00, 0x00,
   0x00, 0x00, 0x00, 0x00,
   0x01, 0x00,
   0x02, 0x00, 0x05, 0x00, 0x03, 0x00, 0x00, 0x00, 0x28, 0x00, 0x00, 0x00,
   0x01, 0x00, 0x00, 0x00,
   0x00, 0x00, 0x00, 0x00,
   0x00, 0x00, 0x00, 0x00, 0x00, 0x00, 0x00, 0x00,
   0x00, 0x00, 0x00, 0x00, 0x00, 0x00, 0x00, 0x00]

/-- C3 counterexample: on `zeroDenomJpeg` — whose GPS latitude rationals all
have denominator 0 — the extraction returns latitude `some NaN`
(`1/0 + (0/0)/60 + (0/0)/3600` under IEEE semantics), not `none` as the claim
asserts: only altitude and image direction guard a zero denominator. -/
theorem exif_zero_denominator_latitude :
    parseExifGPS zeroDenomJpeg =
      .ok { gpsData := some { initGPS with latitude := some JSNum.nan },
            make := none, model := none, software := none, dateTime := none,
            hasGPS := false } := by rfl

theorem jsAdd_not_finite (x y : JSNum) (h : x.isFinite = false) :
    (jsAdd x y).isFinite = false := by
  cases x <;> cases y <;> simp_all [jsAdd, JSNum.isFinite]

theorem jsDiv_fin_zero_not_finite (a : ℚ) :
    (jsDiv (.fin a) (.fin 0)).isFinite = false := by
  by_cases h : a = 0 <;> by_cases h2 : 0 < a <;>
    simp [jsDiv, h, h2, JSNum.isFinite]

/-- C3 (amended): a zero-denominator rational yields `none` only for the
altitude and image-direction fields; for latitude/longitude the decoded value
is the non-finite IEEE result of the division (Infinity or NaN), and the
timestamp field is always set to a string (never `none`) once its six reads
succeed, zero denominators included. -/
theorem gps_zero_denominator_amended :
    (∀ (d : List Nat) (le : Bool) (g : GPSData) (v a : Nat),
      dvU32 le d v = .ok a → dvU32 le d (v + 4) = .ok 0 →
      processGPSEntry d le g 6 v = .ok { g with altitude := none }) ∧
    (∀ (d : List Nat) (le : Bool) (g : GPSData) (v a : Nat),
      dvU32 le d v = .ok a → dvU32 le d (v + 4) = .ok 0 →
      processGPSEntry d le g 0x11 v = .ok { g with direction := none }) ∧
    (∀ (d : List Nat) (le : Bool) (v : Nat) (x : JSNum),
      dvU32 le d (v + 4) = .ok 0 →
      readGPSCoordinate d v le = some x → x.isFinite = false) ∧
    (∀ (d : List Nat) (le : Bool) (g : GPSData) (v : Nat) (g2 : GPSData),
      processGPSEntry d le g 7 v = .ok g2 → g2.timestamp.isSome = true) := by
  refine ⟨?_, ?_, ?_, ?_⟩
  · intro d le g v a h1 h2
    unfold processGPSEntry
    rw [if_neg (by decide), if_neg (by decide), if_neg (by decide),
      if_neg (by decide), if_pos rfl]
    rw [h1, rdE_ok, exbind_ok]
    rw [h2, rdE_ok, exbind_ok]
    rfl
  · intro d le g v a h1 h2
    unfold processGPSEntry
    rw [if_neg (by decide), if_neg (by decide), if_neg (by decide),
      if_neg (by decide), if_neg (by decide), if_neg (by decide),
      if_pos rfl]
    rw [h1, rdE_ok, exbind_ok]
    rw [h2, rdE_ok, exbind_ok]
    rfl
  · intro d le v x h2 hx
    unfold readGPSCoordinate at hx
    rw [h2] at hx
    split at hx
    next dn dd mn md sn sd heq1 heq2 heq3 heq4 heq5 heq6 =>
      cases heq2
      cases hx
      apply jsAdd_not_finite
      apply jsAdd_not_finite
      exact_mod_cast jsDiv_fin_zero_not_finite dn
    next => cases hx
  · intro d le g v g2 h
    unfold processGPSEntry at h
    rw [if_neg (by decide), if_neg (by decide), if_neg (by decide),
      if_neg (by decide), if_neg (by decide), if_pos rfl] at h
    rcases hr1 : dvU32 le d v with e1 | hn <;> rw [hr1] at h
    · rw [rdE_error, exbind_error] at h
      cases h
    rw [rdE_ok, exbind_ok] at h
    rcases hr2 : dvU32 le d (v + 4) with e2 | hd <;> rw [hr2] at h
    · rw [rdE_error, exbind_error] at h
      cases h
    rw [rdE_ok, exbind_ok] at h
    rcases hr3 : dvU32 le d (v + 8) with e3 | mn <;> rw [hr3] at h
    · rw [rdE_error, exbind_error] at h
      cases h
    rw [rdE_ok, exbind_ok] at h
    rcases hr4 : dvU32 le d (v + 12) with e4 | md <;> rw [hr4] at h
    · rw [rdE_error, exbind_error] at h
      cases h
    rw [rdE_ok, exbind_ok] at h
    rcases hr5 : dvU32 le d (v + 16) with e5 | sn <;> rw [hr5] at h
    · rw [rdE_error, exbind_error] at h
      cases h
    rw [rdE_ok, exbind_ok] at h
    rcases hr6 : dvU32 le d (v + 20) with e6 | sd <;> rw [hr6] at h
    · rw [rdE_error, exbind_error] at h
      cases h
    rw [rdE_ok, exbind_ok] at h
    cases h
    rfl

/-- Witness for `gps_zero_denominator_amended` on a tiny little-endian buffer
holding the rational `1/0`. -/
theorem gps_zero_denominator_amended_witness :
    processGPSEntry [1, 0, 0, 0, 0, 0, 0, 0] true initGPS 6 0 =
      .ok { initGPS with altitude := none } :=
  gps_zero_denominator_amended.1 [1, 0, 0, 0, 0, 0, 0, 0] true initGPS 0 1
    (by rfl) (by rfl)

/-! ### GPS reference-direction lemmas -/

/-- The state the GPS-IFD parse carries out of its entry loop, whether the
loop finished (`ok`) or aborted on an out-of-bounds read (`error`). -/
def unpackE : Except GPSData GPSData → GPSData
  | .ok g => g
  | .error g => g

/-- The entry count read by `parseGPSIFD` (0 when the read itself fails). -/
def gpsCount (d : List Nat) (le : Bool) (ifdOffset : Nat) : Nat :=
  match dvU16 le d ifdOffset with
  | .ok c => c
  | .error _ => 0

/-- The tag read of GPS-IFD entry `i`. -/
def gpsTagAt (d : List Nat) (le : Bool) (ifdOffset i : Nat) : Except Unit Nat :=
  dvU16 le d (ifdOffset + 2 + i * 12)

theorem expure_bind {ε α β} (v : α) (f : α → Except ε β) :
    (pure v : Except ε α) >>= f = f v := rfl

theorem processGPSEntry_cases (d : List Nat) (le : Bool) (g : GPSData)
    (tag v : Nat) :
    processGPSEntry d le g tag v = .error g ∨
    (tag = 1 ∧ ∃ b, processGPSEntry d le g tag v =
      .ok { g with latitudeRef := Char.ofNat b }) ∨
    (tag = 2 ∧ processGPSEntry d le g tag v =
      .ok { g with latitude := readGPSCoordinate d v le }) ∨
    (tag = 3 ∧ ∃ b, processGPSEntry d le g tag v =
      .ok { g with longitudeRef := Char.ofNat b }) ∨
    (tag = 4 ∧ processGPSEntry d le g tag v =
      .ok { g with longitude := readGPSCoordinate d v le }) ∨
    (∃ g2, processGPSEntry d le g tag v = .ok g2 ∧
      g2.latitudeRef = g.latitudeRef ∧ g2.longitudeRef = g.longitudeRef ∧
      g2.latitude = g.latitude ∧ g2.longitude = g.longitude) := by
  unfold processGPSEntry
  by_cases h1 : tag = 0x0001
  · rw [if_pos h1]
    rcases hr : dvU8 d v with e | b
    · rw [rdE_error, exbind_error]
      exact Or.inl rfl
    · rw [rdE_ok, exbind_ok]
      exact Or.inr (Or.inl ⟨h1, b, rfl⟩)
  rw [if_neg h1]
  by_cases h2 : tag = 0x0002
  · rw [if_pos h2]
    exact Or.inr (Or.inr (Or.inl ⟨h2, rfl⟩))
  rw [if_neg h2]
  by_cases h3 : tag = 0x0003
  · rw [if_pos h3]
    rcases hr : dvU8 d v with e | b
    · rw [rdE_error, exbind_error]
      exact Or.inl rfl
    · rw [rdE_ok, exbind_ok]
      exact Or.inr (Or.inr (Or.inr (Or.inl ⟨h3, b, rfl⟩)))
  rw [if_neg h3]
  by_cases h4 : tag = 0x0004
  · rw [if_pos h4]
    exact Or.inr (Or.inr (Or.inr (Or.inr (Or.inl ⟨h4, rfl⟩))))
  rw [if_neg h4]
  by_cases h6 : tag = 0x0006
  · rw [if_pos h6]
    rcases hrA : dvU32 le d v with e | a
    · rw [rdE_error, exbind_error]
      exact Or.inl rfl
    rw [rdE_ok, exbind_ok]
    rcases hrB : dvU32 le d (v + 4) with e | b
    · rw [rdE_error, exbind_error]
      exact Or.inl rfl
    rw [rdE_ok, exbind_ok]
    exact Or.inr (Or.inr (Or.inr (Or.inr (Or.inr ⟨_, rfl, rfl, rfl, rfl, rfl⟩))))
  rw [if_neg h6]
  by_cases h7 : tag = 0x0007
  · rw [if_pos h7]
    rcases hr1 : dvU32 le d v with e | hn
    · rw [rdE_error, exbind_error]
      exact Or.inl rfl
    rw [rdE_ok, exbind_ok]
    rcases hr2 : dvU32 le d (v + 4) with e | hd
    · rw [rdE_error, exbind_error]
      exact Or.inl rfl
    rw [rdE_ok, exbind_ok]
    rcases hr3 : dvU32 le d (v + 8) with e | mn
    · rw [rdE_error, exbind_error]
      exact Or.inl rfl
    rw [rdE_ok, exbind_ok]
    rcases hr4 : dvU32 le d (v + 12) with e | md
    · rw [rdE_error, exbind_error]
      exact Or.inl rfl
    rw [rdE_ok, exbind_ok]
    rcases hr5 : dvU32 le d (v + 16) with e | sn
    · rw [rdE_error, exbind_error]
      exact Or.inl rfl
    rw [rdE_ok, exbind_ok]
    rcases hr6 : dvU32 le d (v + 20) with e | sd
    · rw [rdE_error, exbind_error]
      exact Or.inl rfl
    rw [rdE_ok, exbind_ok]
    exact Or.inr (Or.inr (Or.inr (Or.inr (Or.inr ⟨_, rfl, rfl, rfl, rfl, rfl⟩))))
  rw [if_neg h7]
  by_cases h11 : tag = 0x0011
  · rw [if_pos h11]
    rcases hrA : dvU32 le d v with e | a
    · rw [rdE_error, exbind_error]
      exact Or.inl rfl
    rw [rdE_ok, exbind_ok]
    rcases hrB : dvU32 le d (v + 4) with e | b
    · rw [rdE_error, exbind_error]
      exact Or.inl rfl
    rw [rdE_ok, exbind_ok]
    exact Or.inr (Or.inr (Or.inr (Or.inr (Or.inr ⟨_, rfl, rfl, rfl, rfl, rfl⟩))))
  rw [if_neg h11]
  by_cases h1D : tag = 0x001D
  · rw [if_pos h1D]
    rcases hr : dvBytes d v 10 with e | cs
    · rw [rdE_error, exbind_error]
      exact Or.inl rfl
    rw [rdE_ok, exbind_ok]
    exact Or.inr (Or.inr (Or.inr (Or.inr (Or.inr ⟨_, rfl, rfl, rfl, rfl, rfl⟩))))
  rw [if_neg h1D]
  exact Or.inr (Or.inr (Or.inr (Or.inr (Or.inr ⟨g, rfl, rfl, rfl, rfl, rfl⟩))))

/-- Tags other than `GPSLatitudeRef` (1) never change `latitudeRef`. -/
theorem unpackE_latRef_of_ne (d : List Nat) (le : Bool) (g : GPSData)
    (tag v : Nat) (h1 : tag ≠ 1) :
    (unpackE (processGPSEntry d le g tag v)).latitudeRef = g.latitudeRef := by
  rcases processGPSEntry_cases d le g tag v with
    h | ⟨ht, b, h⟩ | ⟨ht, h⟩ | ⟨ht, b, h⟩ | ⟨ht, h⟩ | ⟨g2, h, href, _, _, _⟩
  · rw [h]; rfl
  · exact absurd ht h1
  · rw [h]; rfl
  · rw [h]; rfl
  · rw [h]; rfl
  · rw [h]; exact href

/-- Tags other than `GPSLongitudeRef` (3) never change `longitudeRef`. -/
theorem unpackE_lonRef_of_ne (d : List Nat) (le : Bool) (g : GPSData)
    (tag v : Nat) (h3 : tag ≠ 3) :
    (unpackE (processGPSEntry d le g tag v)).longitudeRef = g.longitudeRef := by
  rcases processGPSEntry_cases d le g tag v with
    h | ⟨ht, b, h⟩ | ⟨ht, h⟩ | ⟨ht, b, h⟩ | ⟨ht, h⟩ | ⟨g2, h, _, href, _, _⟩
  · rw [h]; rfl
  · rw [h]; rfl
  · rw [h]; rfl
  · exact absurd ht h3
  · rw [h]; rfl
  · rw [h]; exact href

theorem jsAdd_nonneg {x y : JSNum} (hx : isNegJS x = false)
    (hy : isNegJS y = false) : isNegJS (jsAdd x y) = false := by
  cases x <;> cases y <;> simp_all [jsAdd, isNegJS]
  linarith

theorem jsDiv_fin_nonneg {x : JSNum} (c : ℚ) (hx : isNegJS x = false)
    (hc : 0 ≤ c) : isNegJS (jsDiv x (.fin c)) = false := by
  cases x with
  | nan => simp [jsDiv, isNegJS]
  | inf =>
    show isNegJS (if c < 0 then .ninf else .inf) = false
    rw [if_neg (not_lt.mpr hc)]
    rfl
  | ninf => exact absurd hx (by simp [isNegJS])
  | fin a =>
    have ha : ¬ a < 0 := by simpa [isNegJS] using hx
    by_cases hc0 : c = 0
    · subst hc0
      show isNegJS (if (0 : ℚ) = 0 then
        (if a = 0 then .nan else if 0 < a then .inf else .ninf)
        else .fin (a / 0)) = false
      rw [if_pos rfl]
      by_cases ha0 : a = 0
      · rw [if_pos ha0]; rfl
      · rw [if_neg ha0, if_pos (by rcases lt_trichotomy a 0 with h | h | h <;>
          first | exact absurd h ha | exact absurd h ha0 | exact h)]
        rfl
    · show isNegJS (if c = 0 then _ else .fin (a / c)) = false
      rw [if_neg hc0]
      simp only [isNegJS, decide_eq_false_iff_not, not_lt]
      exact div_nonneg (not_lt.mp ha) hc

theorem jsDivNat_nonneg (a b : Nat) :
    isNegJS (jsDiv (.fin (a : ℚ)) (.fin (b : ℚ))) = false :=
  jsDiv_fin_nonneg (b : ℚ) (by simp [isNegJS]) (by positivity)

theorem readGPSCoordinate_nonneg {d : List Nat} {v : Nat} {le : Bool}
    {x : JSNum} (hx : readGPSCoordinate d v le = some x) :
    isNegJS x = false := by
  unfold readGPSCoordinate at hx
  split at hx
  next dn dd mn md sn sd heq1 heq2 heq3 heq4 heq5 heq6 =>
    cases hx
    apply jsAdd_nonneg
    · apply jsAdd_nonneg
      · exact jsDivNat_nonneg dn dd
      · exact jsDiv_fin_nonneg 60 (jsDivNat_nonneg mn md) (by norm_num)
    · exact jsDiv_fin_nonneg 3600 (jsDivNat_nonneg sn sd) (by norm_num)
  next => cases hx

/-- The latitude/longitude values set by the entry loop are never negative
(they are sums of non-negative quotients, Infinity or NaN). -/
def GpsNonneg (g : GPSData) : Prop :=
  (∀ x, g.latitude = some x → isNegJS x = false) ∧
  (∀ x, g.longitude = some x → isNegJS x = false)

theorem processGPSEntry_nonneg (d : List Nat) (le : Bool) (g : GPSData)
    (tag v : Nat) (hg : GpsNonneg g) :
    GpsNonneg (unpackE (processGPSEntry d le g tag v)) := by
  rcases processGPSEntry_cases d le g tag v with
    h | ⟨ht, b, h⟩ | ⟨ht, h⟩ | ⟨ht, b, h⟩ | ⟨ht, h⟩ |
    ⟨g2, h, _, _, hlat, hlon⟩ <;> rw [h]
  · exact hg
  · exact hg
  · exact ⟨fun x hx => readGPSCoordinate_nonneg hx, hg.2⟩
  · exact hg
  · exact ⟨hg.1, fun x hx => readGPSCoordinate_nonneg hx⟩
  · refine ⟨fun x hx => hg.1 x ?_, fun x hx => hg.2 x ?_⟩
    · rw [← hlat]
      exact hx
    · rw [← hlon]
      exact hx

/-- Invariant transport through the GPS entry loop (also across the abort
path, which carries the current state). -/
theorem gpsLoop_unpack_inv (d : List Nat) (tiffStart : Nat) (le : Bool)
    (ifdOffset : Nat) (P : GPSData → Prop) :
    ∀ k i g,
      (∀ j tag v, i ≤ j → j < i + k → gpsTagAt d le ifdOffset j = .ok tag →
        ∀ g2, P g2 → P (unpackE (processGPSEntry d le g2 tag v))) →
      P g → P (unpackE (gpsLoop d tiffStart le ifdOffset k i g)) := by
  intro k
  induction k with
  | zero => intro i g _ hg; exact hg
  | succ n ih =>
    intro i g hstep hg
    unfold gpsLoop
    split
    · exact hg
    next tag h1 =>
      split
      · exact hg
      next ty h2 =>
        split
        · exact hg
        next numValues h3 =>
          split
          · exact hg
          next valueOffset h4 =>
            have hstep0 := hstep i tag valueOffset (le_refl i) (by omega) h1 g
              hg
            split
            next g2 hp =>
              rw [hp] at hstep0
              exact hstep0
            next g2 hp =>
              rw [hp] at hstep0
              exact ih (i + 1) g2
                (fun j tg vv hj1 hj2 hr => hstep j tg vv (by omega) (by omega)
                  hr)
                hstep0

theorem applyGPSRefs_latRef (g : GPSData) :
    (applyGPSRefs g).latitudeRef = g.latitudeRef := by
  unfold applyGPSRefs applyAccuracy applyLonRef applyLatRef
  split_ifs <;> rfl

theorem applyGPSRefs_lonRef (g : GPSData) :
    (applyGPSRefs g).longitudeRef = g.longitudeRef := by
  unfold applyGPSRefs applyAccuracy applyLonRef applyLatRef
  split_ifs <;> rfl

theorem applyLatRef_lat (g : GPSData) :
    (applyLatRef g).latitude =
      if g.latitude ≠ none ∧ g.latitudeRef = 'S' then g.latitude.map jsNeg
      else g.latitude := by
  unfold applyLatRef
  split_ifs <;> rfl

theorem applyGPSRefs_lat (g : GPSData) :
    (applyGPSRefs g).latitude =
      if g.latitude ≠ none ∧ g.latitudeRef = 'S' then g.latitude.map jsNeg
      else g.latitude := by
  have h1 : ∀ x : GPSData, (applyAccuracy x).latitude = x.latitude := by
    intro x
    unfold applyAccuracy
    split_ifs <;> rfl
  have h2 : ∀ x : GPSData, (applyLonRef x).latitude = x.latitude := by
    intro x
    unfold applyLonRef
    split_ifs <;> rfl
  unfold applyGPSRefs
  rw [h1, h2, applyLatRef_lat]

theorem applyGPSRefs_lon (g : GPSData) :
    (applyGPSRefs g).longitude =
      if g.longitude ≠ none ∧ g.longitudeRef = 'W' then g.longitude.map jsNeg
      else g.longitude := by
  have h1 : ∀ x : GPSData, (applyAccuracy x).longitude = x.longitude := by
    intro x
    unfold applyAccuracy
    split_ifs <;> rfl
  have h2 : (applyLatRef g).longitude = g.longitude := by
    unfold applyLatRef
    split_ifs <;> rfl
  have h3 : (applyLatRef g).longitudeRef = g.longitudeRef := by
    unfold applyLatRef
    split_ifs <;> rfl
  unfold applyGPSRefs applyLonRef
  rw [h1]
  rw [h2, h3]
  split_ifs
  · rfl
  · exact h2

/-- C10: in `parseGPSIFD` the reference hemispheres default to `'N'`
(latitude) and `'E'` (longitude): (1)-(2) a negative decoded latitude
(longitude) is only possible when the returned `latitudeRef` (`longitudeRef`)
is exactly `'S'` (`'W'`); (3)-(4) when no entry of the GPS sub-IFD carries the
`GPSLatitudeRef` (`GPSLongitudeRef`) tag, the returned reference is the
default `'N'` (`'E'`). -/
theorem gps_ref_defaults (d : List Nat) (ifdOffset tiffStart : Nat)
    (le : Bool) :
    (∀ v, (parseGPSIFD d ifdOffset tiffStart le).latitude = some v →
      isNegJS v = true →
      (parseGPSIFD d ifdOffset tiffStart le).latitudeRef = 'S') ∧
    (∀ v, (parseGPSIFD d ifdOffset tiffStart le).longitude = some v →
      isNegJS v = true →
      (parseGPSIFD d ifdOffset tiffStart le).longitudeRef = 'W') ∧
    ((∀ i, i < gpsCount d le ifdOffset → gpsTagAt d le ifdOffset i ≠ .ok 1) →
      (parseGPSIFD d ifdOffset tiffStart le).latitudeRef = 'N') ∧
    ((∀ i, i < gpsCount d le ifdOffset → gpsTagAt d le ifdOffset i ≠ .ok 3) →
      (parseGPSIFD d ifdOffset tiffStart le).longitudeRef = 'E') := by
  rcases hc : dvU16 le d ifdOffset with e | count
  · have hG : parseGPSIFD d ifdOffset tiffStart le = initGPS := by
      unfold parseGPSIFD
      simp only [hc]
    refine ⟨?_, ?_, ?_, ?_⟩ <;> rw [hG] <;> intro h
    · intro hx; cases hx
    · intro hx; cases hx
    · rfl
    · rfl
  · have hcnt : gpsCount d le ifdOffset = count := by
      unfold gpsCount
      rw [hc]
    have hnn : GpsNonneg (unpackE (gpsLoop d tiffStart le ifdOffset count 0
        initGPS)) := by
      apply gpsLoop_unpack_inv
      · intro j tag v _ _ _ g2 hg2
        exact processGPSEntry_nonneg d le g2 tag v hg2
      · exact ⟨(fun x hx => nomatch hx), (fun x hx => nomatch hx)⟩
    rcases hl : gpsLoop d tiffStart le ifdOffset count 0 initGPS with gerr | gok
    · have hG : parseGPSIFD d ifdOffset tiffStart le = gerr := by
        unfold parseGPSIFD
        simp only [hc, hl]
      rw [hl] at hnn
      refine ⟨?_, ?_, ?_, ?_⟩ <;> rw [hG]
      · intro v hv hneg
        exact absurd (hnn.1 v hv) (by rw [hneg]; simp)
      · intro v hv hneg
        exact absurd (hnn.2 v hv) (by rw [hneg]; simp)
      · intro htags
        have := gpsLoop_unpack_inv d tiffStart le ifdOffset
          (fun g => g.latitudeRef = 'N') count 0 initGPS
          (fun j tag v _ hj hr g2 hg2 => by
            show (unpackE (processGPSEntry d le g2 tag v)).latitudeRef = 'N'
            rw [unpackE_latRef_of_ne d le g2 tag v (fun h1 => by
              subst h1
              exact htags j (by omega) hr)]
            exact hg2) rfl
        rw [hl] at this
        exact this
      · intro htags
        have := gpsLoop_unpack_inv d tiffStart le ifdOffset
          (fun g => g.longitudeRef = 'E') count 0 initGPS
          (fun j tag v _ hj hr g2 hg2 => by
            show (unpackE (processGPSEntry d le g2 tag v)).longitudeRef = 'E'
            rw [unpackE_lonRef_of_ne d le g2 tag v (fun h3 => by
              subst h3
              exact htags j (by omega) hr)]
            exact hg2) rfl
        rw [hl] at this
        exact this
    · have hG : parseGPSIFD d ifdOffset tiffStart le = applyGPSRefs gok := by
        unfold parseGPSIFD
        simp only [hc, hl]
      rw [hl] at hnn
      refine ⟨?_, ?_, ?_, ?_⟩ <;> rw [hG]
      · intro v hv hneg
        by_cases hS : gok.latitude ≠ none ∧ gok.latitudeRef = 'S'
        · rw [applyGPSRefs_latRef]
          exact hS.2
        · rw [applyGPSRefs_lat, if_neg hS] at hv
          exact absurd (hnn.1 v hv) (by rw [hneg]; simp)
      · intro v hv hneg
        by_cases hW : gok.longitude ≠ none ∧ gok.longitudeRef = 'W'
        · rw [applyGPSRefs_lonRef]
          exact hW.2
        · rw [applyGPSRefs_lon, if_neg hW] at hv
          exact absurd (hnn.2 v hv) (by rw [hneg]; simp)
      · intro htags
        rw [applyGPSRefs_latRef]
        have := gpsLoop_unpack_inv d tiffStart le ifdOffset
          (fun g => g.latitudeRef = 'N') count 0 initGPS
          (fun j tag v _ hj hr g2 hg2 => by
            show (unpackE (processGPSEntry d le g2 tag v)).latitudeRef = 'N'
            rw [unpackE_latRef_of_ne d le g2 tag v (fun h1 => by
              subst h1
              exact htags j (by omega) hr)]
            exact hg2) rfl
        rw [hl] at this
        exact this
      · intro htags
        rw [applyGPSRefs_lonRef]
        have := gpsLoop_unpack_inv d tiffStart le ifdOffset
          (fun g => g.longitudeRef = 'E') count 0 initGPS
          (fun j tag v _ hj hr g2 hg2 => by
            show (unpackE (processGPSEntry d le g2 tag v)).longitudeRef = 'E'
            rw [unpackE_lonRef_of_ne d le g2 tag v (fun h3 => by
              subst h3
              exact htags j (by omega) hr)]
            exact hg2) rfl
        rw [hl] at this
        exact this

/-- Witness for `gps_ref_defaults`: the empty buffer, whose GPS IFD has no
entries, keeps the default hemisphere `'N'`. -/
theorem gps_ref_defaults_witness :
    (parseGPSIFD [] 0 0 true).latitudeRef = 'N' :=
  (gps_ref_defaults [] 0 0 true).2.2.1 (fun i hi =>
    absurd hi (by rw [show gpsCount [] true 0 = 0 from rfl]; omega))

/-! ## FAT/NTFS structural reader (`HexViewer.tsx`)

`FileEntry` keeps the fields both parsers populate (`createdTime` etc. are
never set by them).  The `fragmentStatus` string is one of `"complete"`,
`"partial"`, `"fragmented"`.  32-bit `|`/`<<` chains produce signed values in
JavaScript, modelled by `rd32s`; out-of-bounds plain indexing yields
`undefined`, which every use here coerces to 0 (bitwise operators and `>`
comparisons), modelled by `getD _ _ 0`. -/

structure FileEntry where
  name : List Char
  path : List Char
  size : Int
  isDirectory : Bool
  isDeleted : Bool
  cluster : Nat
  attributes : List String
  recoverable : Bool
  fragmentStatus : String
deriving DecidableEq

structure FatResult where
  files : List FileEntry
  deletedFiles : List FileEntry
  clusterSize : Nat
  fatType : String
deriving DecidableEq

/-- `rootDirStart` of `parseFAT`: `reservedSectors * bytesPerSector +
(numFATs * data[22]) * bytesPerSector`. -/
def fatRootDirStart (d : List Nat) : Nat :=
  rd16 d 14 * rd16 d 11 + (d.getD 16 0 * d.getD 22 0) * rd16 d 11

/-- The root-directory entry loop of `parseFAT`.  Each iteration advances `i`
by one, so `rootEntryCount` fuel is exact. -/
def parseFATLoop (d : List Nat) (rootDirStart rootEntryCount : Nat) :
    Nat → Nat → List FileEntry → List FileEntry →
      List FileEntry × List FileEntry
  | 0, _, files, deleted => (files, deleted)
  | fuel + 1, i, files, deleted =>
    if i < rootEntryCount ∧ rootDirStart + i * 32 < d.length then
      if d.getD (rootDirStart + i * 32) 0 = 0x00 then (files, deleted)
      else if d.getD (rootDirStart + i * 32) 0 = 0xE5 then
        if jsTrim ((jsSlice d (rootDirStart + i * 32 + 1)
            (rootDirStart + i * 32 + 8)).map Char.ofNat) ≠ [] then
          parseFATLoop d rootDirStart rootEntryCount fuel (i + 1) files
            (deleted ++ [{
              name := '_' :: jsTrim ((jsSlice d (rootDirStart + i * 32 + 1)
                  (rootDirStart + i * 32 + 8)).map Char.ofNat) ++
                (if jsTrim ((jsSlice d (rootDirStart + i * 32 + 8)
                    (rootDirStart + i * 32 + 11)).map Char.ofNat) ≠ [] then
                  '.' :: jsTrim ((jsSlice d (rootDirStart + i * 32 + 8)
                    (rootDirStart + i * 32 + 11)).map Char.ofNat)
                else []),
              path := '/' :: '_' :: jsTrim ((jsSlice d
                  (rootDirStart + i * 32 + 1)
                  (rootDirStart + i * 32 + 8)).map Char.ofNat) ++
                (if jsTrim ((jsSlice d (rootDirStart + i * 32 + 8)
                    (rootDirStart + i * 32 + 11)).map Char.ofNat) ≠ [] then
                  '.' :: jsTrim ((jsSlice d (rootDirStart + i * 32 + 8)
                    (rootDirStart + i * 32 + 11)).map Char.ofNat)
                else []),
              size := rd32s d (rootDirStart + i * 32 + 28),
              isDirectory := false, isDeleted := true,
              cluster := rd16 d (rootDirStart + i * 32 + 26),
              attributes := [],
              recoverable := decide (rd16 d (rootDirStart + i * 32 + 26) > 0 ∧
                rd32s d (rootDirStart + i * 32 + 28) > 0),
              fragmentStatus := "partial" }])
        else parseFATLoop d rootDirStart rootEntryCount fuel (i + 1) files
          deleted
      else if d.getD (rootDirStart + i * 32) 0 ≠ 0x2E then
        if jsTrim ((jsSlice d (rootDirStart + i * 32)
            (rootDirStart + i * 32 + 8)).map Char.ofNat) ≠ [] then
          parseFATLoop d rootDirStart rootEntryCount fuel (i + 1)
            (files ++ [{
              name := jsTrim ((jsSlice d (rootDirStart + i * 32)
                  (rootDirStart + i * 32 + 8)).map Char.ofNat) ++
                (if jsTrim ((jsSlice d (rootDirStart + i * 32 + 8)
                      (rootDirStart + i * 32 + 11)).map Char.ofNat) ≠ [] ∧
                    ¬ (d.getD (rootDirStart + i * 32 + 11) 0 &&& 0x10 ≠ 0) then
                  '.' :: jsTrim ((jsSlice d (rootDirStart + i * 32 + 8)
                    (rootDirStart + i * 32 + 11)).map Char.ofNat)
                else []),
              path := '/' :: jsTrim ((jsSlice d (rootDirStart + i * 32)
                  (rootDirStart + i * 32 + 8)).map Char.ofNat) ++
                (if jsTrim ((jsSlice d (rootDirStart + i * 32 + 8)
                      (rootDirStart + i * 32 + 11)).map Char.ofNat) ≠ [] ∧
                    ¬ (d.getD (rootDirStart + i * 32 + 11) 0 &&& 0x10 ≠ 0) then
                  '.' :: jsTrim ((jsSlice d (rootDirStart + i * 32 + 8)
                    (rootDirStart + i * 32 + 11)).map Char.ofNat)
                else []),
              size := rd32s d (rootDirStart + i * 32 + 28),
              isDirectory := decide
                (d.getD (rootDirStart + i * 32 + 11) 0 &&& 0x10 ≠ 0),
              isDeleted := false,
              cluster := rd16 d (rootDirStart + i * 32 + 26),
              attributes :=
                (if d.getD (rootDirStart + i * 32 + 11) 0 &&& 0x01 ≠ 0 then
                  ["Read-Only"] else []) ++
                (if d.getD (rootDirStart + i * 32 + 11) 0 &&& 0x02 ≠ 0 then
                  ["Hidden"] else []) ++
                (if d.getD (rootDirStart + i * 32 + 11) 0 &&& 0x04 ≠ 0 then
                  ["System"] else []) ++
                (if d.getD (rootDirStart + i * 32 + 11) 0 &&& 0x10 ≠ 0 then
                  ["Directory"] else []) ++
                (if d.getD (rootDirStart + i * 32 + 11) 0 &&& 0x20 ≠ 0 then
                  ["Archive"] else []),
              recoverable := true,
              fragmentStatus := "complete" }]) deleted
        else parseFATLoop d rootDirStart rootEntryCount fuel (i + 1) files
          deleted
      else parseFATLoop d rootDirStart rootEntryCount fuel (i + 1) files
        deleted
    else (files, deleted)

/-- `parseFAT` of `HexViewer.tsx`.  (On buffers shorter than 14 bytes the JS
`clusterSize` would be `NaN`; the model yields 0 — no claim concerns that
field on such buffers.) -/
def parseFAT (d : List Nat) : FatResult :=
  { files := (parseFATLoop d (fatRootDirStart d) (rd16 d 17) (rd16 d 17) 0
      [] []).1,
    deletedFiles := (parseFATLoop d (fatRootDirStart d) (rd16 d 17)
      (rd16 d 17) 0 [] []).2,
    clusterSize := rd16 d 11 * d.getD 13 0,
    fatType := "FAT32" }

/-- `Uint8Array` indexing at a possibly negative/out-of-range index, as
coerced to 0 by the bitwise/comparison contexts `parseNTFS` uses it in. -/
def jsByteI (d : List Nat) (i : Int) : Nat :=
  if 0 ≤ i ∧ i < (d.length : Int) then d.getD i.toNat 0 else 0

def rd16I (d : List Nat) (i : Int) : Nat :=
  jsByteI d i + jsByteI d (i + 1) * 256

/-- Signed 32-bit `|`/`<<` chain at an `Int` index. -/
def rd32sI (d : List Nat) (i : Int) : Int :=
  toInt32 (jsByteI d i + jsByteI d (i + 1) * 256 + jsByteI d (i + 2) * 65536 +
    jsByteI d (i + 3) * 16777216)

/-- `Uint8Array.prototype.slice` with JavaScript negative-index-from-end
semantics. -/
def jsSliceI (d : List Nat) (s e : Int) : List Nat :=
  (d.take ((if e < 0 then max ((d.length : Int) + e) 0
    else min e (d.length : Int)).toNat)).drop
    ((if s < 0 then max ((d.length : Int) + s) 0
      else min s (d.length : Int)).toNat)

/-- The `$FILE_NAME` attribute walk of `parseNTFS` (the inner `while`).  The
loop runs while `currentOffset < i + 1024` and advances by `attrLength` per
step, so 1024 fuel covers every terminating JS run; on a negative
`attrLength` the JS loops forever and the model returns the name collected so
far.  Note `attrType === 0xFFFFFFFF` compares a signed 32-bit value with
`4294967295` and so never holds. -/
def ntfsNameLoop (d : List Nat) (i : Int) :
    Nat → Int → List Char → List Char
  | 0, _, fileName => fileName
  | fuel + 1, currentOffset, fileName =>
    if currentOffset < i + 1024 ∧ currentOffset < (d.length : Int) then
      if rd32sI d currentOffset = 4294967295 then fileName
      else
        if rd32sI d (currentOffset + 4) = 0 then
          if rd32sI d currentOffset = 0x30 then
            if jsByteI d (currentOffset + 88) > 0 ∧
                currentOffset + 90 + (jsByteI d (currentOffset + 88) : Int) * 2 ≤
                  (d.length : Int) then
              (List.range (jsByteI d (currentOffset + 88))).map fun j =>
                Char.ofNat ((jsSliceI d (currentOffset + 90)
                  (currentOffset + 90 +
                    (jsByteI d (currentOffset + 88) : Int) * 2)).getD (j * 2) 0)
            else fileName
          else fileName
        else
          ntfsNameLoop d i fuel (currentOffset + rd32sI d (currentOffset + 4))
            (if rd32sI d currentOffset = 0x30 then
              if jsByteI d (currentOffset + 88) > 0 ∧
                  currentOffset + 90 +
                    (jsByteI d (currentOffset + 88) : Int) * 2 ≤
                    (d.length : Int) then
                (List.range (jsByteI d (currentOffset + 88))).map fun j =>
                  Char.ofNat ((jsSliceI d (currentOffset + 90)
                    (currentOffset + 90 +
                      (jsByteI d (currentOffset + 88) : Int) * 2)).getD
                    (j * 2) 0)
              else fileName
            else fileName)
    else fileName

/-- The MFT record scan of `parseNTFS`.  `rand` is the `Math.random()`
stream, consumed in call order (`k` is the next draw index): a deleted entry
draws for `recoverable` then `fragmentStatus`; an active entry only draws for
`fragmentStatus`.  The loop steps `i` by 1024 below
`min(length, mftOffset + 1000000)`, so 1000 fuel covers every run. -/
def ntfsScan (rand : Nat → ℚ) (d : List Nat) (bound : Int) :
    Nat → Int → Nat → List FileEntry → List FileEntry →
      List FileEntry × List FileEntry
  | 0, _, _, files, deleted => (files, deleted)
  | fuel + 1, i, k, files, deleted =>
    if i < bound then
      if i + 4 ≥ (d.length : Int) then (files, deleted)
      else if (jsSliceI d i (i + 4)).map Char.ofNat = "FILE".data then
        if ntfsNameLoop d i 1024 (i + (rd16I d (i + 20) : Int)) [] ≠ [] ∧
            (ntfsNameLoop d i 1024 (i + (rd16I d (i + 20) : Int)) []).head? ≠
              some '$' then
          if rd16I d (i + 22) &&& 0x01 = 0 then
            ntfsScan rand d bound fuel (i + 1024) (k + 2) files (deleted ++ [{
              name := ntfsNameLoop d i 1024 (i + (rd16I d (i + 20) : Int)) [],
              path := '/' ::
                ntfsNameLoop d i 1024 (i + (rd16I d (i + 20) : Int)) [],
              size := 0,
              isDirectory := decide (rd16I d (i + 22) &&& 0x02 ≠ 0),
              isDeleted := true, cluster := 0, attributes := ["Deleted"],
              recoverable := decide (rand k > Rat.divInt 3 10),
              fragmentStatus :=
                if rand (k + 1) > Rat.divInt 7 10 then "fragmented" else "complete" }])
          else
            ntfsScan rand d bound fuel (i + 1024) (k + 1) (files ++ [{
              name := ntfsNameLoop d i 1024 (i + (rd16I d (i + 20) : Int)) [],
              path := '/' ::
                ntfsNameLoop d i 1024 (i + (rd16I d (i + 20) : Int)) [],
              size := 0,
              isDirectory := decide (rd16I d (i + 22) &&& 0x02 ≠ 0),
              isDeleted := false, cluster := 0, attributes := [],
              recoverable := true,
              fragmentStatus :=
                if rand k > Rat.divInt 7 10 then "fragmented" else "complete" }])
              deleted
        else ntfsScan rand d bound fuel (i + 1024) k files deleted
      else ntfsScan rand d bound fuel (i + 1024) k files deleted
    else (files, deleted)

structure NtfsResult where
  files : List FileEntry
  deletedFiles : List FileEntry
  clusterSize : Nat
  ntfsVersion : String
deriving DecidableEq

/-- `mftOffset` of `parseNTFS`: the signed 32-bit MFT cluster pointer at
offset 48 times the cluster size. -/
def ntfsMftOffset (d : List Nat) : Int :=
  rd32s d 48 * (rd16 d 11 * d.getD 13 0)

/-- `parseNTFS` of `HexViewer.tsx`, with the `Math.random()` stream made an
explicit parameter. -/
def parseNTFS (rand : Nat → ℚ) (d : List Nat) : NtfsResult :=
  { files := (ntfsScan rand d
      (min (d.length : Int) (ntfsMftOffset d + 1000000)) 1000
      (ntfsMftOffset d) 0 [] []).1,
    deletedFiles := (ntfsScan rand d
      (min (d.length : Int) (ntfsMftOffset d + 1000000)) 1000
      (ntfsMftOffset d) 0 [] []).2,
    clusterSize := rd16 d 11 * d.getD 13 0,
    ntfsVersion := "3.1" }

/-! ### FAT/NTFS lemmas -/

/-- A 160-byte buffer with one MFT `FILE` record (in use, one-character
`$FILE_NAME` attribute `"A"`). -/
def ntfsDemo : List Nat :=
  (List.range 160).map fun i =>
    if i = 0 then 0x46 else if i = 1 then 0x49 else if i = 2 then 0x4C
    else if i = 3 then 0x45 else if i = 20 then 64 else if i = 22 then 1
    else if i = 64 then 0x30 else if i = 68 then 96 else if i = 152 then 1
    else if i = 154 then 0x41 else 0

set_option maxRecDepth 8192 in
/-- C6 counterexample: `parseNTFS` consumes `Math.random()` (here: the stream
parameter), and two runs over the identical buffer with different draws give
different results — the recovered entry's `fragmentStatus` is `"complete"`
under one stream and `"fragmented"` under the other.  The claim that every
analyzer is deterministic with no source of randomness is therefore false for
the NTFS parser. -/
theorem ntfs_random_nondeterminism :
    parseNTFS (fun _ => 0) ntfsDemo ≠ parseNTFS (fun _ => 1) ntfsDemo := by
  decide

/-- The deterministic part of a `FileEntry`: every field except the two that
`parseNTFS` derives from `Math.random()` (`recoverable`, `fragmentStatus`). -/
def stripEntry (e : FileEntry) :
    List Char × List Char × Int × Bool × Bool × Nat × List String :=
  (e.name, e.path, e.size, e.isDirectory, e.isDeleted, e.cluster, e.attributes)

theorem ntfsScan_strip (r1 r2 : Nat → ℚ) (d : List Nat) (bound : Int) :
    ∀ fuel i k fs1 fs2 ds1 ds2,
      fs1.map stripEntry = fs2.map stripEntry →
      ds1.map stripEntry = ds2.map stripEntry →
      (ntfsScan r1 d bound fuel i k fs1 ds1).1.map stripEntry =
        (ntfsScan r2 d bound fuel i k fs2 ds2).1.map stripEntry ∧
      (ntfsScan r1 d bound fuel i k fs1 ds1).2.map stripEntry =
        (ntfsScan r2 d bound fuel i k fs2 ds2).2.map stripEntry := by
  intro fuel
  induction fuel with
  | zero => intro i k fs1 fs2 ds1 ds2 hf hd; exact ⟨hf, hd⟩
  | succ n ih =>
    intro i k fs1 fs2 ds1 ds2 hf hd
    unfold ntfsScan
    split_ifs with h1 h2 h3 h4 h5 <;>
      first
      | exact ⟨hf, hd⟩
      | (apply ih <;> simp [List.map_append, hf, hd, stripEntry])

/-- C6 (amended): `parseNTFS` is deterministic in everything except the
random draws: for any two `Math.random()` streams, the two runs agree on the
full file and deleted-file lists up to the `recoverable` and `fragmentStatus`
fields, and on `clusterSize` and `ntfsVersion`.  (The other analyzers —
`detectSignature`, `parseExifGPS`, `parseFAT` — take no randomness at all:
they are plain functions of the buffer in this development.) -/
theorem ntfs_strip_deterministic (r1 r2 : Nat → ℚ) (d : List Nat) :
    (parseNTFS r1 d).files.map stripEntry =
      (parseNTFS r2 d).files.map stripEntry ∧
    (parseNTFS r1 d).deletedFiles.map stripEntry =
      (parseNTFS r2 d).deletedFiles.map stripEntry ∧
    (parseNTFS r1 d).clusterSize = (parseNTFS r2 d).clusterSize ∧
    (parseNTFS r1 d).ntfsVersion = (parseNTFS r2 d).ntfsVersion := by
  have h := ntfsScan_strip r1 r2 d
    (min (d.length : Int) (ntfsMftOffset d + 1000000)) 1000
    (ntfsMftOffset d) 0 [] [] [] [] rfl rfl
  exact ⟨h.1, h.2, rfl, rfl⟩

/-- C8: on a FAT image whose root directory starts with a `0xE5`-flagged
entry carrying a recoverable remaining name, followed by a `0x00` terminator
entry, `parseFAT` yields no active entry and exactly one deleted entry, whose
first name character is the `'_'` placeholder (the original first character is
overwritten by the deletion marker). -/
theorem fat_deleted_entry (d : List Nat)
    (hcnt : 2 ≤ rd16 d 17)
    (hlen : fatRootDirStart d + 32 < d.length)
    (hE5 : d.getD (fatRootDirStart d) 0 = 0xE5)
    (h00 : d.getD (fatRootDirStart d + 32) 0 = 0x00)
    (hname : jsTrim ((jsSlice d (fatRootDirStart d + 1)
      (fatRootDirStart d + 8)).map Char.ofNat) ≠ []) :
    (parseFAT d).files = [] ∧ (parseFAT d).deletedFiles.length = 1 ∧
    ∀ e ∈ (parseFAT d).deletedFiles,
      e.isDeleted = true ∧ e.name.head? = some '_' := by
  obtain ⟨c, hc⟩ : ∃ c, rd16 d 17 = c + 2 := ⟨rd16 d 17 - 2, by omega⟩
  unfold parseFAT
  simp only [hc]
  unfold parseFATLoop
  rw [if_pos (⟨by omega, by omega⟩ :
    0 < c + 2 ∧ fatRootDirStart d + 0 * 32 < d.length)]
  have h0 : fatRootDirStart d + 0 * 32 = fatRootDirStart d := by omega
  rw [h0]
  rw [if_neg (by rw [hE5]; decide), if_pos hE5, if_pos hname]
  unfold parseFATLoop
  rw [if_pos (⟨by omega, by omega⟩ :
    1 < c + 2 ∧ fatRootDirStart d + 1 * 32 < d.length)]
  have h1 : fatRootDirStart d + 1 * 32 = fatRootDirStart d + 32 := by omega
  rw [h1]
  rw [if_pos h00]
  refine ⟨rfl, rfl, ?_⟩
  intro e he
  simp only [List.nil_append, List.mem_singleton] at he
  subst he
  exact ⟨rfl, rfl⟩

/-- A 34-byte synthetic FAT root directory: one deleted entry (`0xE5`,
remaining name `"A"`), then the `0x00` terminator. -/
def fatDemo : List Nat :=
  [0xE5, 0x41, 0x20, 0x20, 0x20, 0x20, 0x20, 0x20,
   0x20, 0x20, 0x20, 0, 0, 0, 0, 0,
   0, 0x02, 0, 0, 0, 0, 0, 0,
   0, 0, 0, 0, 0, 0, 0, 0,
   0x00, 0]

/-- Witness for `fat_deleted_entry` on `fatDemo`. -/
theorem fat_deleted_entry_witness :
    (parseFAT fatDemo).files = [] ∧
    (parseFAT fatDemo).deletedFiles.length = 1 ∧
    ∀ e ∈ (parseFAT fatDemo).deletedFiles,
      e.isDeleted = true ∧ e.name.head? = some '_' :=
  fat_deleted_entry fatDemo (by decide) (by decide) (by decide) (by decide)
    (by decide)

end DDS
